import Mathlib

/-!
Shallow embedding of the two ink! contracts of this repository,
`src/sistema-elecciones/lib.rs` (election lifecycle, admission, voting,
tallying, memoized results) and `src/reporte/lib.rs` (read-only reporting
aggregator), together with theorems settling the frozen claims about them.

Modelling conventions, used consistently below:
* `AccountId` is opaque: only equality on it is ever used, so it is `Nat`.
* The ledger environment (`env().caller()`, `env().block_timestamp()`) is an
  external collaborator; both values are passed to each operation as explicit
  parameters.
* Machine integers are `Nat` with explicit overflow handling where the source
  handles or can hit overflow: `checked_add`/`checked_mul` become
  `Option`-valued helpers, and `u32::div_ceil` keeps its divide-by-zero panic
  as `none`.  Vector lengths always fit the `as u32`/`as u64` casts the source
  performs (`usize` is 32 bits on the contract target), so those casts are the
  identity here.
* ink! contracts are built with `overflow-checks` enabled, so unchecked `u32`
  arithmetic (`Mul::mul` in the reporting contract) panics on overflow;
  a panic is modelled as `none` in an `Option`-valued result.
* Rust `Result<String, String>` becomes `Except String String`, with the exact
  message strings of the source.  In-place mutation through `&mut self`
  becomes explicit state passing: each mutating operation returns its result
  paired with the new state.
-/

/-- AccountId of the ink! environment: an opaque account identity, compared
only for equality. -/
abbrev AccountId := Nat

/-- One more than the largest value of `u32`. -/
def U32LIMIT : Nat := 4294967296

/-- One more than the largest value of `u64`. -/
def U64LIMIT : Nat := 18446744073709551616

/-- The checked addition `u32::checked_add`. -/
def u32checkedAdd (a b : Nat) : Option Nat :=
  if a + b < U32LIMIT then some (a + b) else none

/-- The checked addition `u64::checked_add`. -/
def u64checkedAdd (a b : Nat) : Option Nat :=
  if a + b < U64LIMIT then some (a + b) else none

/-- Multiplication of `u32` values (`Mul::mul` in `reporte/lib.rs`); contract
builds enable `overflow-checks`, so overflow is a panic, modelled as `none`. -/
def u32mul (a b : Nat) : Option Nat :=
  if a * b < U32LIMIT then some (a * b) else none

/-- The ceiling division `u32::div_ceil`; division by zero panics (`none`). -/
def u32divCeil (a b : Nat) : Option Nat :=
  if b = 0 then none else some (a / b + if a % b = 0 then 0 else 1)

/-- The enum `TIPO_DE_USUARIO` of `sistema-elecciones/lib.rs`. -/
inductive TipoDeUsuario where
  | VOTANTE
  | CANDIDATO
deriving DecidableEq

/-- The struct `Usuario`: a registered (or pending) user profile. -/
structure Usuario where
  id : AccountId
  nombre : String
  apellido : String
  dni : String
deriving DecidableEq

/-- The struct `Votante`: a voter record of one election. -/
structure Votante where
  id : AccountId
  voto_emitido : Bool
deriving DecidableEq

/-- The struct `CandidatoConteo`: a candidate of one election with its tally. -/
structure CandidatoConteo where
  id : AccountId
  candidato_id : Nat
  votos_totales : Nat
deriving DecidableEq, Inhabited

/-- The struct `Resultados`: the memoized final tally of one election. -/
structure Resultados where
  votos_totales : Nat
  votos_realizados : Nat
  votos_candidatos : List (AccountId × Nat)
deriving DecidableEq

/-- The struct `Eleccion`. -/
structure Eleccion where
  id : Nat
  candidatos : List CandidatoConteo
  votantes : List Votante
  usuarios_rechazados : List AccountId
  usuarios_pendientes : List (AccountId × TipoDeUsuario)
  votacion_iniciada : Bool
  fecha_inicio : Nat
  fecha_final : Nat
  resultados : Option Resultados
deriving DecidableEq

/-- The method `Eleccion::contiene_usuario_pendiente`. -/
def Eleccion.contiene_usuario_pendiente (e : Eleccion) (id : AccountId) : Bool :=
  e.usuarios_pendientes.any (fun p => p.1 == id)

/-- The method `Eleccion::existe_candidato`: candidate ids are 1-based
positions into the candidate list. -/
def Eleccion.existe_candidato (e : Eleccion) (candidato_id : Nat) : Bool :=
  decide (1 ≤ candidato_id) && decide (candidato_id ≤ e.candidatos.length)

/-- The method `Eleccion::obtener_informacion_candidato`. -/
def Eleccion.obtener_informacion_candidato (e : Eleccion) (candidato_id : Nat) :
    Option CandidatoConteo :=
  if ¬ e.existe_candidato candidato_id then none
  else if candidato_id = 0 then none
  else e.candidatos[candidato_id - 1]?

/-- In-place mutation of the `voto_emitido` flag of the first voter record
with a given id, as performed through the `&mut` reference that
`self.votantes.iter_mut().find(..)` hands out in `Eleccion::votar_candidato`. -/
def marcarVoto (l : List Votante) (vid : AccountId) (b : Bool) : List Votante :=
  match l with
  | [] => []
  | v :: rest =>
    if v.id = vid then { v with voto_emitido := b } :: rest
    else v :: marcarVoto rest vid b

/-- The method `Eleccion::votar_candidato` (vote casting with the overflow
roll-back), as result plus post-state. -/
def Eleccion.votar_candidato (e : Eleccion) (votante_id : AccountId)
    (candidato_id : Nat) : Except String String × Eleccion :=
  if ¬ e.existe_candidato candidato_id then
    (.error "No existe un candidato con este id.", e)
  else
    match e.votantes.find? (fun v => v.id == votante_id) with
    | none => (.error "No estás registrado en la elección.", e)
    | some votante =>
      if votante.voto_emitido then
        (.error "No se realizó el voto porque ya votaste anteriormente.", e)
      else
        let votantes1 := marcarVoto e.votantes votante_id true
        if candidato_id = 0 then
          -- the checked_sub(1) failure arm (dead: existe_candidato forces ≥ 1)
          (.error "Se produjo un overflow intentando obtener el candidato.",
            { e with votantes := votantes1 })
        else
          let candidato := e.candidatos.getD (candidato_id - 1) default
          match u32checkedAdd candidato.votos_totales 1 with
          | none =>
            (.error "Se produjo un overflow al intentar sumar el voto.",
              { e with votantes := marcarVoto votantes1 votante_id false })
          | some vt =>
            (.ok "Voto emitido exitosamente.",
              { e with votantes := votantes1,
                       candidatos := e.candidatos.set (candidato_id - 1)
                         { candidato with votos_totales := vt } })

/-- The method `Eleccion::procesar_siguiente_usuario_pendiente` (FIFO
processing of the per-election admission queue). -/
def Eleccion.procesar_siguiente_usuario_pendiente (e : Eleccion)
    (aceptar_usuario : Bool) : Except String String × Eleccion :=
  match e.usuarios_pendientes with
  | [] => (.error "No hay usuarios pendientes.", e)
  | (usuario, tipo) :: rest =>
    if aceptar_usuario then
      match tipo with
      | .VOTANTE =>
        (.ok "Usuario agregado exitosamente.",
          { e with usuarios_pendientes := rest,
                   votantes := e.votantes ++ [{ id := usuario, voto_emitido := false }] })
      | .CANDIDATO =>
        match u32checkedAdd e.candidatos.length 1 with
        | none =>
          (.error "Ocurrio un overflow al calcular la ID del candidato.",
            { e with usuarios_pendientes := rest })
        | some candidato_id =>
          (.ok "Usuario agregado exitosamente.",
            { e with usuarios_pendientes := rest,
                     candidatos := e.candidatos ++
                       [{ id := usuario, candidato_id := candidato_id, votos_totales := 0 }] })
    else
      (.ok "Usuario rechazado exitosamente.",
        { e with usuarios_pendientes := rest,
                 usuarios_rechazados := e.usuarios_rechazados ++ [usuario] })

/-- The tally the source computes on the first successful call of
`Eleccion::obtener_resultados_votacion`. -/
def resultadosCalculados (e : Eleccion) : Resultados :=
  { votos_totales := e.votantes.length,
    votos_realizados := (e.votantes.filter (fun v => v.voto_emitido)).length,
    votos_candidatos := e.candidatos.map (fun c => (c.id, c.votos_totales)) }

/-- The method `Eleccion::obtener_resultados_votacion` (memoized results). -/
def Eleccion.obtener_resultados_votacion (e : Eleccion) (block_timestamp : Nat) :
    Option Resultados × Eleccion :=
  if e.fecha_final > block_timestamp then (none, e)
  else
    match e.resultados with
    | some r => (some r, e)
    | none =>
      (some (resultadosCalculados e), { e with resultados := some (resultadosCalculados e) })

/-- The message of `ERRORES::NO_ES_ADMINISTRADOR`. -/
def mensajeNoEsAdministrador : String := "No eres el administrador."

/-- The message of `ERRORES::USUARIO_NO_REGISTRADO`. -/
def mensajeNoRegistrado : String :=
  "No estás registrado en el sistema. Espera a que te acepten en el mismo o realiza la solicitud."

/-- The storage struct `SistemaElecciones`. -/
structure SistemaElecciones where
  administrador : AccountId
  generador_reportes : Option AccountId
  registro_activado : Bool
  usuarios : List Usuario
  usuarios_pendientes : List Usuario
  usuarios_rechazados : List AccountId
  elecciones : List Eleccion
deriving DecidableEq

/-- The constructor `SistemaElecciones::new` (its caller becomes admin). -/
def SistemaElecciones.nuevo (caller : AccountId) : SistemaElecciones :=
  { administrador := caller, generador_reportes := none, registro_activado := false,
    usuarios := [], usuarios_pendientes := [], usuarios_rechazados := [], elecciones := [] }

/-- The method `SistemaElecciones::es_generador_reportes`. -/
def SistemaElecciones.es_generador_reportes (s : SistemaElecciones) (caller : AccountId) : Bool :=
  match s.generador_reportes with
  | none => false
  | some v => caller == v

/-- The method `SistemaElecciones::es_administrador`. -/
def SistemaElecciones.es_administrador (s : SistemaElecciones) (caller : AccountId) : Bool :=
  caller == s.administrador

/-- The method `SistemaElecciones::obtener_usuario`. -/
def SistemaElecciones.obtener_usuario (s : SistemaElecciones) (id : AccountId) : Option Usuario :=
  s.usuarios.find? (fun u => u.id == id)

/-- The method `SistemaElecciones::es_usuario_registrado`. -/
def SistemaElecciones.es_usuario_registrado (s : SistemaElecciones) (caller : AccountId) : Bool :=
  s.usuarios.any (fun u => u.id == caller)

/-- The method `SistemaElecciones::es_usuario_pendiente`. -/
def SistemaElecciones.es_usuario_pendiente (s : SistemaElecciones) (caller : AccountId) : Bool :=
  s.usuarios_pendientes.any (fun u => u.id == caller)

/-- The method `SistemaElecciones::existe_eleccion`: election ids are 1-based
positions into the election list. -/
def SistemaElecciones.existe_eleccion (s : SistemaElecciones) (eleccion_id : Nat) : Bool :=
  decide (1 ≤ eleccion_id) && decide (eleccion_id ≤ s.elecciones.length)

/-- The methods `SistemaElecciones::obtener_eleccion_por_id` and
`obtener_ref_eleccion_por_id` (same selector, mutable/immutable borrow). -/
def SistemaElecciones.obtener_eleccion_por_id (s : SistemaElecciones) (eleccion_id : Nat) :
    Option Eleccion :=
  if s.existe_eleccion eleccion_id then s.elecciones[eleccion_id - 1]? else none

/-- Write-back of an election mutated through the `&mut` reference that
`obtener_eleccion_por_id` hands out. -/
def SistemaElecciones.updateEleccion (s : SistemaElecciones) (eleccion_id : Nat) (e : Eleccion) :
    SistemaElecciones :=
  { s with elecciones := s.elecciones.set (eleccion_id - 1) e }

/-- The method `SistemaElecciones::validar_estado_eleccion` (admission-time
lifecycle checks of `joinElection`). -/
def SistemaElecciones.validar_estado_eleccion (s : SistemaElecciones) (eleccion_id : Nat)
    (block_timestamp : Nat) (id_usuario : AccountId) : Except String Eleccion :=
  match s.obtener_eleccion_por_id eleccion_id with
  | none => .error "No existe una elección con ese id."
  | some e =>
    if e.contiene_usuario_pendiente id_usuario then
      .error "Ya está registrado en la elección."
    else if e.votacion_iniciada || decide (e.fecha_inicio < block_timestamp) then
      .error "La votación en la elección ya comenzó, no te puedes registrar."
    else if e.fecha_final < block_timestamp then
      .error "La elección ya finalizó, no te puedes registrar."
    else .ok e

/-- The message `registrarse_privado` / `ingresar_a_eleccion_privado` etc.
return through `Result`; `caller` stands for `env().caller()`. -/
def SistemaElecciones.registrarse (s : SistemaElecciones) (caller : AccountId)
    (nombre apellido dni : String) : Except String String × SistemaElecciones :=
  if ¬ s.registro_activado then (.error "El registro todavía no está activado.", s)
  else if s.es_administrador caller then
    (.error "Eres el administrador, no puedes registrarte.", s)
  else if s.usuarios_rechazados.contains caller then
    (.error "Tu solicitud de registro ya fue rechazada.", s)
  else if s.es_usuario_registrado caller then
    (.error "Ya estás registrado como usuario.", s)
  else if s.es_usuario_pendiente caller then
    (.error "Ya estás en la cola de usuarios pendientes.", s)
  else
    (.ok "Registro exitoso. Se te añadió en la cola de usuarios pendientes.",
      { s with usuarios_pendientes := s.usuarios_pendientes ++
          [{ id := caller, nombre := nombre, apellido := apellido, dni := dni }] })

/-- The method `SistemaElecciones::procesar_siguiente_usuario_pendiente_privado`
(global registration queue, FIFO). -/
def SistemaElecciones.procesar_siguiente_usuario_pendiente (s : SistemaElecciones)
    (caller : AccountId) (aceptar_usuario : Bool) : Except String String × SistemaElecciones :=
  if ¬ s.es_administrador caller then (.error mensajeNoEsAdministrador, s)
  else
    match s.usuarios_pendientes with
    | [] => (.error "No hay usuarios pendientes.", s)
    | usuario :: rest =>
      if aceptar_usuario then
        (.ok "Usuario agregado exitosamente.",
          { s with usuarios_pendientes := rest, usuarios := s.usuarios ++ [usuario] })
      else
        (.ok "Usuario rechazado exitosamente.",
          { s with usuarios_pendientes := rest,
                   usuarios_rechazados := s.usuarios_rechazados ++ [usuario.id] })

/-- The method `SistemaElecciones::crear_eleccion_privado`.  The chrono date
parser is an external collaborator (spec §6); the parse outcome of each date
string is passed in as an `Option` timestamp. -/
def SistemaElecciones.crear_eleccion (s : SistemaElecciones) (caller : AccountId)
    (fecha_inicial fecha_final : Option Nat) : Except String String × SistemaElecciones :=
  if ¬ s.es_administrador caller then (.error mensajeNoEsAdministrador, s)
  else
    match fecha_inicial with
    | none => (.error "Error en el formato de la fecha inicial. Formato: dd-mm-YYYY hh:mm", s)
    | some fi =>
      match fecha_final with
      | none => (.error "Error en el formato de la fecha final. Formato: dd-mm-YYYY hh:mm", s)
      | some ff =>
        match u64checkedAdd s.elecciones.length 1 with
        | none => (.error "Se produjo un overflow al intentar crear una elección.", s)
        | some eleccion_id =>
          (.ok ("Eleccion creada exitosamente. Id de la elección: " ++ toString eleccion_id),
            { s with elecciones := s.elecciones ++
                [{ id := eleccion_id, candidatos := [], votantes := [],
                   usuarios_pendientes := [], usuarios_rechazados := [],
                   votacion_iniciada := false, fecha_inicio := fi, fecha_final := ff,
                   resultados := none }] })

/-- The method `SistemaElecciones::iniciar_votacion_privado`. -/
def SistemaElecciones.iniciar_votacion (s : SistemaElecciones) (caller : AccountId)
    (block_timestamp : Nat) (eleccion_id : Nat) : Except String String × SistemaElecciones :=
  if ¬ s.es_administrador caller then (.error mensajeNoEsAdministrador, s)
  else
    match s.obtener_eleccion_por_id eleccion_id with
    | some e =>
      if block_timestamp > e.fecha_final then (.error "La votación ya finalizó.", s)
      else if e.votacion_iniciada then (.error "La votación ya inició.", s)
      else if block_timestamp < e.fecha_inicio then
        (.error "Todavía no es la fecha para la votación.", s)
      else
        (.ok "Se inició la votación exitosamente.",
          s.updateEleccion eleccion_id { e with votacion_iniciada := true })
    | none => (.error "No existe una elección con ese id.", s)

/-- The method `SistemaElecciones::procesar_usuarios_en_una_eleccion_privado`. -/
def SistemaElecciones.procesar_usuarios_en_una_eleccion (s : SistemaElecciones)
    (caller : AccountId) (eleccion_id : Nat) (aceptar_usuario : Bool) :
    Except String String × SistemaElecciones :=
  if ¬ s.es_administrador caller then (.error mensajeNoEsAdministrador, s)
  else
    match s.obtener_eleccion_por_id eleccion_id with
    | none => (.error "Eleccion no encontrada", s)
    | some e =>
      let r := e.procesar_siguiente_usuario_pendiente aceptar_usuario
      (r.1, s.updateEleccion eleccion_id r.2)

/-- The method `SistemaElecciones::ingresar_a_eleccion_privado` (joinElection). -/
def SistemaElecciones.ingresar_a_eleccion (s : SistemaElecciones) (caller : AccountId)
    (block_timestamp : Nat) (eleccion_id : Nat) (tipo : TipoDeUsuario) :
    Except String String × SistemaElecciones :=
  if ¬ s.es_usuario_registrado caller then (.error mensajeNoRegistrado, s)
  else
    match s.validar_estado_eleccion eleccion_id block_timestamp caller with
    | .error mensaje => (.error mensaje, s)
    | .ok e =>
      if e.usuarios_rechazados.contains caller then
        (.error "Ya has sido rechazado no puedes ingresar a la eleccion", s)
      else if e.contiene_usuario_pendiente caller then
        (.error "No puedes ingresar dos veces a la misma eleccion", s)
      else
        (.ok "Ingresó a la elección correctamente Pendiente de aprobacion del Administrador",
          s.updateEleccion eleccion_id
            { e with usuarios_pendientes := e.usuarios_pendientes ++ [(caller, tipo)] })

/-- Tail of `votar_a_candidato_privado` once the `votacion_iniciada` flag has
been handled: `e1` is the (possibly just started) election the source keeps
mutating in place. -/
def SistemaElecciones.votarConIniciada (s : SistemaElecciones) (eleccion_id : Nat)
    (candidato_id : Nat) (caller : AccountId) (block_timestamp : Nat) (e1 : Eleccion) :
    Except String String × SistemaElecciones :=
  if block_timestamp > e1.fecha_final then
    (.error "La votación ya finalizó.", s.updateEleccion eleccion_id e1)
  else
    ((e1.votar_candidato caller candidato_id).1,
      s.updateEleccion eleccion_id (e1.votar_candidato caller candidato_id).2)

/-- The method `SistemaElecciones::votar_a_candidato_privado` (castVote). -/
def SistemaElecciones.votar_a_candidato (s : SistemaElecciones) (caller : AccountId)
    (block_timestamp : Nat) (eleccion_id : Nat) (candidato_id : Nat) :
    Except String String × SistemaElecciones :=
  if ¬ s.es_usuario_registrado caller then (.error mensajeNoRegistrado, s)
  else
    match s.obtener_eleccion_por_id eleccion_id with
    | none => (.error "No existe una elección con ese id.", s)
    | some e =>
      if e.votacion_iniciada = false ∧ block_timestamp < e.fecha_inicio then
        (.error "Todavía no es la fecha para la votación.", s)
      else
        s.votarConIniciada eleccion_id candidato_id caller block_timestamp
          (if e.votacion_iniciada then e else { e with votacion_iniciada := true })

/-- The method `SistemaElecciones::activar_registro_privado`. -/
def SistemaElecciones.activar_registro (s : SistemaElecciones) (caller : AccountId) :
    Except String String × SistemaElecciones :=
  if ¬ s.es_administrador caller then (.error mensajeNoEsAdministrador, s)
  else if s.registro_activado then (.error "El registro ya está activado.", s)
  else (.ok "Se activó el registro para los usuarios.", { s with registro_activado := true })

/-- The method `SistemaElecciones::desactivar_registro_privado`. -/
def SistemaElecciones.desactivar_registro (s : SistemaElecciones) (caller : AccountId) :
    Except String String × SistemaElecciones :=
  if ¬ s.es_administrador caller then (.error mensajeNoEsAdministrador, s)
  else if ¬ s.registro_activado then (.error "El registro ya está desactivado.", s)
  else (.ok "Se desactivó el registro para los usuarios.", { s with registro_activado := false })

/-- The method `SistemaElecciones::transferir_administrador_privado`. -/
def SistemaElecciones.transferir_administrador (s : SistemaElecciones) (caller : AccountId)
    (id : AccountId) : Except String String × SistemaElecciones :=
  if ¬ s.es_administrador caller then (.error mensajeNoEsAdministrador, s)
  else (.ok "Se transfirió el rol de administrador correctamente.", { s with administrador := id })

/-- The method `SistemaElecciones::asignar_generador_reportes_privado`. -/
def SistemaElecciones.asignar_generador_reportes (s : SistemaElecciones) (caller : AccountId)
    (id : AccountId) : Except String String × SistemaElecciones :=
  if ¬ s.es_administrador caller then (.error mensajeNoEsAdministrador, s)
  else
    (.ok "Se asigno el generador reportes correctamente.",
      { s with generador_reportes := some id })

/-- The method `SistemaElecciones::obtener_informacion_usuario_privado`. -/
def SistemaElecciones.obtener_informacion_usuario (s : SistemaElecciones) (caller : AccountId)
    (user_id : AccountId) : Option (String × String × String) :=
  if ¬ s.es_generador_reportes caller ∧ ¬ s.es_administrador caller then none
  else (s.usuarios.find? (fun u => u.id == user_id)).map (fun u => (u.nombre, u.apellido, u.dni))

/-- The method `SistemaElecciones::obtener_votantes_eleccion_por_id_privado`. -/
def SistemaElecciones.obtener_votantes_eleccion_por_id (s : SistemaElecciones)
    (caller : AccountId) (block_timestamp : Nat) (eleccion_id : Nat) :
    Except String (List (AccountId × Bool)) :=
  if ¬ s.es_generador_reportes caller ∧ ¬ s.es_administrador caller then
    .error "No es el generador de reportes o no es el administrador!"
  else
    match s.obtener_eleccion_por_id eleccion_id with
    | some e =>
      if e.fecha_final > block_timestamp then
        .error "La elección no finalizó, no puedes obtener los datos."
      else .ok (e.votantes.map (fun v => (v.id, v.voto_emitido)))
    | none => .error "La eleccion enviada no existe!"

/-- The method `SistemaElecciones::obtener_candidatos_eleccion_por_id_privado`. -/
def SistemaElecciones.obtener_candidatos_eleccion_por_id (s : SistemaElecciones)
    (caller : AccountId) (block_timestamp : Nat) (eleccion_id : Nat) :
    Except String (List (AccountId × Nat)) :=
  if ¬ s.es_generador_reportes caller ∧ ¬ s.es_administrador caller then
    .error "No es el generador de reportes o no es el administrador!"
  else
    match s.obtener_eleccion_por_id eleccion_id with
    | some e =>
      if e.fecha_final > block_timestamp then
        .error "La elección no finalizó, no puedes obtener los datos."
      else .ok (e.candidatos.map (fun c => (c.id, c.votos_totales)))
    | none => .error "La eleccion enviada no existe!"

/-- The method `SistemaElecciones::obtener_resultados_privado`. -/
def SistemaElecciones.obtener_resultados (s : SistemaElecciones) (block_timestamp : Nat)
    (eleccion_id : Nat) : Except String Resultados × SistemaElecciones :=
  match s.obtener_eleccion_por_id eleccion_id with
  | none => (.error "No se encontró una elección con ese id.", s)
  | some e =>
    match e.obtener_resultados_votacion block_timestamp with
    | (none, e2) =>
      (.error "Todavía no están los resultados de la elección publicados.",
        s.updateEleccion eleccion_id e2)
    | (some resultados, e2) => (.ok resultados, s.updateEleccion eleccion_id e2)

/-- The method `SistemaElecciones::obtener_informacion_candidato_eleccion_privado`.
The outer `Option` records the `.expect(..)` call on the profile lookup:
`none` is the panic. -/
def SistemaElecciones.obtener_informacion_candidato_eleccion (s : SistemaElecciones)
    (eleccion_id : Nat) (candidato_id : Nat) : Option (Except String String) :=
  match s.obtener_eleccion_por_id eleccion_id with
  | none => some (.error "Eleccion no encontrada.")
  | some e =>
    match e.obtener_informacion_candidato candidato_id with
    | none => some (.error "Candidato no encontrado.")
    | some candidato =>
      match s.obtener_usuario candidato.id with
      | none => none
      | some info =>
        some (.ok ("Nombre: " ++ info.nombre ++ "\nApellido: " ++ info.apellido ++
          "\nDNI: " ++ info.dni))

/-- The comparator `|a, b| b.1.cmp(&a.1)` of `reporte/lib.rs` turned into the
boolean «not Greater» relation a stable sort consumes: descending by total
votes. -/
def leVotos (a b : AccountId × Nat) : Bool := b.2 ≤ a.2

/-- The profile join of the reporting contract: `obtener_informacion_usuario`
with `unwrap_or_default` (a missing profile yields empty strings). -/
def perfilODefault (s : SistemaElecciones) (caller : AccountId) (id : AccountId) :
    String × String × String :=
  (s.obtener_informacion_usuario caller id).getD ("", "", "")

/-- The message `Reporte::reporte_de_votantes_por_eleccion` computes.  The
`Reporte` contract holds a reference to the elections contract and calls it
with its own identity; `s` is that contract's state and `caller` the identity
the elections contract sees. -/
def Reporte.reporte_de_votantes_por_eleccion (s : SistemaElecciones) (caller : AccountId)
    (block_timestamp : Nat) (id_eleccion : Nat) :
    Except String (List (AccountId × String × String × String)) :=
  match s.obtener_votantes_eleccion_por_id caller block_timestamp id_eleccion with
  | .error msg => .error msg
  | .ok datos_votantes =>
    .ok (datos_votantes.map (fun dv =>
      let du := perfilODefault s caller dv.1
      (dv.1, du.1, du.2.1, du.2.2)))

/-- The method `Reporte::reporte_de_participacion_por_eleccion`.  The outer
`Option` records the two panics the arithmetic can raise: the checked `u32`
multiplication and `div_ceil` with a zero divisor; `none` is a panic. -/
def Reporte.reporte_de_participacion_por_eleccion (s : SistemaElecciones) (caller : AccountId)
    (block_timestamp : Nat) (id_eleccion : Nat) : Option (Except String (Nat × Nat)) :=
  match s.obtener_votantes_eleccion_por_id caller block_timestamp id_eleccion with
  | .error msg => some (.error msg)
  | .ok datos_votantes =>
    let cantidad_votantes := datos_votantes.length
    let cantidad_votantes_voto_efectivo := (datos_votantes.filter (fun vot => vot.2)).length
    match u32mul cantidad_votantes_voto_efectivo 100 with
    | none => none
    | some producto =>
      match u32divCeil producto cantidad_votantes with
      | none => none
      | some porcentaje_participacion =>
        some (.ok (cantidad_votantes_voto_efectivo, porcentaje_participacion))

/-- The body of the ranking closure of `reporte_de_resultado_por_eleccion`:
join one `(id, votes)` pair with the profile lookup. -/
def enriquecerCandidato (s : SistemaElecciones) (caller : AccountId)
    (dc : AccountId × Nat) : AccountId × String × String × String × Nat :=
  (dc.1, (perfilODefault s caller dc.1).1, (perfilODefault s caller dc.1).2.1,
    (perfilODefault s caller dc.1).2.2, dc.2)

/-- Projection of an enriched candidate tuple to its vote count (the `.4`
field the source compares). -/
def votosDe (t : AccountId × String × String × String × Nat) : Nat := t.2.2.2.2

/-- The method `Reporte::reporte_de_resultado_por_eleccion`.  Rust's
`sort_by` is a stable sort: its output on the total preorder given by the
comparator is the one any stable sort produces, here `List.mergeSort` with
`leVotos`.  The outer `Option` records the `candidatos[0]` indexing panic on
an empty candidate list; `none` is the panic. -/
def Reporte.reporte_de_resultado_por_eleccion (s : SistemaElecciones) (caller : AccountId)
    (block_timestamp : Nat) (id_eleccion : Nat) :
    Option (Except String ((Option (AccountId × String × String × String × Nat)) ×
      List (AccountId × String × String × String × Nat))) :=
  match s.obtener_candidatos_eleccion_por_id caller block_timestamp id_eleccion with
  | .error msg => some (.error msg)
  | .ok datos_candidatos =>
    match (datos_candidatos.mergeSort leVotos).map (enriquecerCandidato s caller) with
    | [] => none
    | c0 :: resto =>
      match resto with
      | [] => some (.ok (some c0, c0 :: resto))
      | c1 :: _ =>
        if votosDe c0 = votosDe c1 then some (.ok (none, c0 :: resto))
        else some (.ok (some c0, c0 :: resto))

/-- Projection of a candidate record to its immutable part: owner identity and
assigned candidate number. -/
def identidadCandidato (c : CandidatoConteo) : AccountId × Nat := (c.id, c.candidato_id)

/-- Membership of an identity in the globally registered user set. -/
def registradoEnSistema (s : SistemaElecciones) (id : AccountId) : Prop :=
  ∃ u ∈ s.usuarios, Usuario.id u = id

/-- The implicit invariant of claim C10: every per-election pending request
and every stored candidate belongs to a globally registered identity. -/
def candidatosRegistrados (s : SistemaElecciones) : Prop :=
  ∀ e ∈ s.elecciones,
    (∀ p ∈ Eleccion.usuarios_pendientes e, registradoEnSistema s p.1) ∧
    (∀ c ∈ Eleccion.candidatos e, registradoEnSistema s (CandidatoConteo.id c))

/-- States of the elections contract reachable from its constructor through
its public state-mutating messages (caller and block timestamp arbitrary at
every step). -/
inductive Alcanzable : SistemaElecciones → Prop where
  | nuevo (caller : AccountId) : Alcanzable (SistemaElecciones.nuevo caller)
  | registrarse (s : SistemaElecciones) (h : Alcanzable s) (caller : AccountId)
      (nombre apellido dni : String) :
      Alcanzable (s.registrarse caller nombre apellido dni).2
  | procesar_pendiente (s : SistemaElecciones) (h : Alcanzable s) (caller : AccountId)
      (aceptar : Bool) :
      Alcanzable (s.procesar_siguiente_usuario_pendiente caller aceptar).2
  | crear (s : SistemaElecciones) (h : Alcanzable s) (caller : AccountId)
      (fi ff : Option Nat) :
      Alcanzable (s.crear_eleccion caller fi ff).2
  | iniciar (s : SistemaElecciones) (h : Alcanzable s) (caller : AccountId)
      (ts eid : Nat) :
      Alcanzable (s.iniciar_votacion caller ts eid).2
  | procesar_eleccion (s : SistemaElecciones) (h : Alcanzable s) (caller : AccountId)
      (eid : Nat) (aceptar : Bool) :
      Alcanzable (s.procesar_usuarios_en_una_eleccion caller eid aceptar).2
  | ingresar (s : SistemaElecciones) (h : Alcanzable s) (caller : AccountId)
      (ts eid : Nat) (tipo : TipoDeUsuario) :
      Alcanzable (s.ingresar_a_eleccion caller ts eid tipo).2
  | votar (s : SistemaElecciones) (h : Alcanzable s) (caller : AccountId)
      (ts eid cid : Nat) :
      Alcanzable (s.votar_a_candidato caller ts eid cid).2
  | activar (s : SistemaElecciones) (h : Alcanzable s) (caller : AccountId) :
      Alcanzable (s.activar_registro caller).2
  | desactivar (s : SistemaElecciones) (h : Alcanzable s) (caller : AccountId) :
      Alcanzable (s.desactivar_registro caller).2
  | transferir (s : SistemaElecciones) (h : Alcanzable s) (caller id : AccountId) :
      Alcanzable (s.transferir_administrador caller id).2
  | asignar (s : SistemaElecciones) (h : Alcanzable s) (caller id : AccountId) :
      Alcanzable (s.asignar_generador_reportes caller id).2
  | resultados (s : SistemaElecciones) (h : Alcanzable s) (ts eid : Nat) :
      Alcanzable (s.obtener_resultados ts eid).2

/-- Concrete election for claim C1: voting started, one candidate (account 2,
number 1), one voter (account 1) who has not voted yet. -/
def eleccionVotada : Eleccion :=
  { id := 1, candidatos := [⟨2, 1, 0⟩], votantes := [⟨1, false⟩],
    usuarios_rechazados := [], usuarios_pendientes := [], votacion_iniciada := true,
    fecha_inicio := 0, fecha_final := 10, resultados := none }

/-- Concrete system state containing `eleccionVotada`; accounts 1 and 2 are
registered users, account 0 is the administrator. -/
def sistemaConVoto : SistemaElecciones :=
  { administrador := 0, generador_reportes := none, registro_activado := true,
    usuarios := [⟨1, "Ana", "Alfa", "11111111"⟩, ⟨2, "Beto", "Bravo", "22222222"⟩],
    usuarios_pendientes := [], usuarios_rechazados := [], elecciones := [eleccionVotada] }

/-- Concrete election in which voter 1 has already cast their vote. -/
def eleccionYaVotada : Eleccion :=
  { eleccionVotada with votantes := [⟨1, true⟩], candidatos := [⟨2, 1, 1⟩] }

/-- Concrete system state containing `eleccionYaVotada`. -/
def sistemaYaVotado : SistemaElecciones :=
  { sistemaConVoto with elecciones := [eleccionYaVotada] }

/-- Concrete election for claims C4/C6: voting window `[0, 5]`, never started
explicitly. -/
def eleccionNoIniciada : Eleccion :=
  { id := 1, candidatos := [⟨2, 1, 0⟩], votantes := [⟨1, false⟩],
    usuarios_rechazados := [], usuarios_pendientes := [], votacion_iniciada := false,
    fecha_inicio := 0, fecha_final := 5, resultados := none }

/-- Concrete system state containing `eleccionNoIniciada`. -/
def sistemaNoIniciado : SistemaElecciones :=
  { administrador := 0, generador_reportes := none, registro_activado := true,
    usuarios := [⟨1, "Ana", "Alfa", "11111111"⟩, ⟨2, "Beto", "Bravo", "22222222"⟩],
    usuarios_pendientes := [], usuarios_rechazados := [], elecciones := [eleccionVotada, eleccionNoIniciada] }

/-- Concrete finished election with no voters and no candidates (claim C5). -/
def eleccionVacia : Eleccion :=
  { id := 1, candidatos := [], votantes := [],
    usuarios_rechazados := [], usuarios_pendientes := [], votacion_iniciada := false,
    fecha_inicio := 0, fecha_final := 0, resultados := none }

/-- Concrete system state for the reporting claims: account 9 is the assigned
report generator, election 1 is `eleccionVacia`. -/
def sistemaSinVotantes : SistemaElecciones :=
  { administrador := 0, generador_reportes := some 9, registro_activado := false,
    usuarios := [], usuarios_pendientes := [], usuarios_rechazados := [],
    elecciones := [eleccionVacia] }

/-- Concrete finished election whose voter list holds 42949673 voter records
with `voto_emitido = true` (claim C7: `42949673 * 100` exceeds `u32::MAX`). -/
def eleccionMasiva : Eleccion :=
  { id := 1, candidatos := [], votantes := List.replicate 42949673 ⟨1, true⟩,
    usuarios_rechazados := [], usuarios_pendientes := [], votacion_iniciada := true,
    fecha_inicio := 0, fecha_final := 0, resultados := none }

/-- Concrete system state containing `eleccionMasiva`. -/
def sistemaMasivo : SistemaElecciones :=
  { administrador := 0, generador_reportes := some 9, registro_activado := false,
    usuarios := [], usuarios_pendientes := [], usuarios_rechazados := [],
    elecciones := [eleccionMasiva] }

/-- Concrete finished election with 7 voters of which 5 voted (claim C7
witness: participation 5 of 7 gives 72 percent). -/
def eleccionSiete : Eleccion :=
  { id := 1, candidatos := [],
    votantes := [⟨1, true⟩, ⟨2, true⟩, ⟨3, false⟩, ⟨4, true⟩, ⟨5, false⟩, ⟨6, true⟩, ⟨7, true⟩],
    usuarios_rechazados := [], usuarios_pendientes := [], votacion_iniciada := true,
    fecha_inicio := 0, fecha_final := 0, resultados := none }

/-- Concrete finished election with two candidates holding 2 and 3 votes
(claim C8 witness: ranking example A of the spec). -/
def eleccionRanking : Eleccion :=
  { id := 1, candidatos := [⟨10, 1, 2⟩, ⟨12, 2, 3⟩], votantes := [],
    usuarios_rechazados := [], usuarios_pendientes := [], votacion_iniciada := true,
    fecha_inicio := 0, fecha_final := 0, resultados := none }

/-- Concrete system state holding both reporting-witness elections. -/
def sistemaReportes : SistemaElecciones :=
  { administrador := 0, generador_reportes := some 9, registro_activado := false,
    usuarios := [], usuarios_pendientes := [], usuarios_rechazados := [],
    elecciones := [eleccionSiete, eleccionRanking] }

/-- Concrete election with a candidate admission request pending (claim C9
witness). -/
def eleccionConPendiente : Eleccion :=
  { id := 1, candidatos := [⟨3, 1, 0⟩], votantes := [],
    usuarios_rechazados := [], usuarios_pendientes := [(5, .CANDIDATO)],
    votacion_iniciada := false, fecha_inicio := 0, fecha_final := 10, resultados := none }

/-- Concrete election at the `u32` tally limit (claim C2 witness): candidate
number 1 already holds `u32::MAX` votes and voter 1 has not voted. -/
def eleccionLlena : Eleccion :=
  { id := 1, candidatos := [⟨2, 1, 4294967295⟩], votantes := [⟨1, false⟩],
    usuarios_rechazados := [], usuarios_pendientes := [], votacion_iniciada := true,
    fecha_inicio := 0, fecha_final := 10, resultados := none }

/-- The voter tuples of `eleccionSiete` as the accessor returns them. -/
def listaVotantesSiete : List (AccountId × Bool) :=
  [(1, true), (2, true), (3, false), (4, true), (5, false), (6, true), (7, true)]

/-- Where the pending entries of an election in a successor state may come
from: an election already stored in `s`, or a globally registered identity. -/
def origenPendiente (s : SistemaElecciones) (x : Eleccion) : Prop :=
  ∀ p ∈ Eleccion.usuarios_pendientes x,
    (∃ e0 ∈ s.elecciones, p ∈ Eleccion.usuarios_pendientes e0) ∨ registradoEnSistema s p.1

/-- Where the candidate records of an election in a successor state may come
from: a candidate already stored in `s`, a pending entry already stored in
`s`, or a globally registered identity. -/
def origenCandidato (s : SistemaElecciones) (x : Eleccion) : Prop :=
  ∀ c ∈ Eleccion.candidatos x,
    (∃ e0 ∈ s.elecciones, ∃ c0 ∈ Eleccion.candidatos e0,
       CandidatoConteo.id c = CandidatoConteo.id c0) ∨
    (∃ e0 ∈ s.elecciones, ∃ p ∈ Eleccion.usuarios_pendientes e0,
       CandidatoConteo.id c = p.1) ∨
    registradoEnSistema s (CandidatoConteo.id c)

/-! ## Helper lemmas -/

/-- Setting a list index to the value it already holds is a no-op. -/
theorem set_self_of_getElem? {α : Type} {l : List α} {i : Nat} {a : α}
    (h : l[i]? = some a) : l.set i a = l := by
  induction l generalizing i with
  | nil => simp at h
  | cons x xs ih =>
    cases i with
    | zero => simp_all
    | succ n => simp_all

/-- A `set` whose new value has the same image under `f` as the old one
leaves the mapped list unchanged. -/
theorem map_set_self {α β : Type} (f : α → β) {l : List α} {i : Nat} {a b : α}
    (h : l[i]? = some b) (hf : f a = f b) : (l.set i a).map f = l.map f := by
  rw [List.map_set, hf]
  exact set_self_of_getElem? (by rw [List.getElem?_map, h]; rfl)

/-- Marking the first record with a given id `true` and then `false` restores
the original list when that record started out `false`. -/
theorem marcarVoto_roundtrip {l : List Votante} {vid : AccountId} {v : Votante}
    (h : l.find? (fun x => x.id == vid) = some v) (hv : v.voto_emitido = false) :
    marcarVoto (marcarVoto l vid true) vid false = l := by
  induction l with
  | nil => simp at h
  | cons x xs ih =>
    by_cases hx : x.id = vid
    · rw [List.find?_cons_of_pos _ (by simp [hx])] at h
      obtain rfl : x = v := by injection h
      cases x with
      | mk xid xv => simp_all [marcarVoto]
    · rw [List.find?_cons_of_neg _ (by simp [hx])] at h
      simp [marcarVoto, hx, ih h]

/-- Vote casting never touches the admission lists, lifecycle flags, dates or
the memoized results of an election. -/
theorem votar_candidato_resto (e : Eleccion) (vid : AccountId) (cid : Nat) :
    ((e.votar_candidato vid cid).2).usuarios_pendientes = e.usuarios_pendientes ∧
    ((e.votar_candidato vid cid).2).usuarios_rechazados = e.usuarios_rechazados ∧
    ((e.votar_candidato vid cid).2).votacion_iniciada = e.votacion_iniciada ∧
    ((e.votar_candidato vid cid).2).fecha_inicio = e.fecha_inicio ∧
    ((e.votar_candidato vid cid).2).fecha_final = e.fecha_final ∧
    ((e.votar_candidato vid cid).2).id = e.id ∧
    ((e.votar_candidato vid cid).2).resultados = e.resultados := by
  unfold Eleccion.votar_candidato
  repeat' split
  all_goals try simp
  all_goals (cases h2 : u32checkedAdd (e.candidatos[cid - 1]?.getD default).votos_totales 1 <;> simp [h2])

/-- Full case analysis of `Eleccion::votar_candidato`: every failing call
leaves the election exactly unchanged (the overflow arm rolls the voter flag
back), and a successful call marks the first matching voter record and bumps
the chosen candidate's tally. -/
theorem votar_candidato_casos (e : Eleccion) (vid : AccountId) (cid : Nat) :
    (∃ m, e.votar_candidato vid cid = (.error m, e)) ∨
    (∃ v vt, e.existe_candidato cid = true ∧
       e.votantes.find? (fun x => x.id == vid) = some v ∧ v.voto_emitido = false ∧
       u32checkedAdd (CandidatoConteo.votos_totales (e.candidatos.getD (cid - 1) default)) 1
         = some vt ∧
       e.votar_candidato vid cid = (.ok "Voto emitido exitosamente.",
         { e with votantes := marcarVoto e.votantes vid true,
                  candidatos := e.candidatos.set (cid - 1)
                    { e.candidatos.getD (cid - 1) default with votos_totales := vt } })) := by
  unfold Eleccion.votar_candidato
  split
  · exact Or.inl ⟨_, rfl⟩
  · rename_i hex0
    have hex : e.existe_candidato cid = true := not_not.mp hex0
    split
    · exact Or.inl ⟨_, rfl⟩
    · rename_i votante hfind
      split
      · exact Or.inl ⟨_, rfl⟩
      · rename_i hv
        have hv' : votante.voto_emitido = false := by
          revert hv; cases votante.voto_emitido <;> simp
        split
        · rename_i h0
          exfalso
          have := hex
          unfold Eleccion.existe_candidato at this
          simp [h0] at this
        · rename_i h0
          cases h2 : u32checkedAdd (CandidatoConteo.votos_totales
              (e.candidatos.getD (cid - 1) default)) 1 with
          | none =>
            refine Or.inl ⟨"Se produjo un overflow al intentar sumar el voto.", ?_⟩
            have hround := marcarVoto_roundtrip hfind hv'
            rw [List.getD_eq_getElem?_getD] at h2
            simp [h2, hround]
          | some vt =>
            refine Or.inr ⟨votante, vt, hex, hfind, hv', rfl, ?_⟩
            rw [List.getD_eq_getElem?_getD] at h2
            simp [h2]

/-- Vote casting preserves the identity and number of every candidate (only a
tally can change). -/
theorem votar_candidato_map_identidad (e : Eleccion) (vid : AccountId) (cid : Nat) :
    ((e.votar_candidato vid cid).2).candidatos.map identidadCandidato =
      e.candidatos.map identidadCandidato := by
  rcases votar_candidato_casos e vid cid with ⟨m, h⟩ | ⟨v, vt, hex, hfind, hv, hadd, h⟩
  · rw [h]
  · rw [h]
    have hlt : cid - 1 < e.candidatos.length := by
      unfold Eleccion.existe_candidato at hex
      simp at hex
      omega
    have hsome := List.getElem?_eq_getElem hlt
    apply map_set_self _ hsome
    simp [identidadCandidato, List.getD_eq_getElem?_getD, hsome]

/-- Processing an admission request preserves lifecycle fields and can only
shorten the pending queue and append to the voter/candidate/rejected lists. -/
theorem procesar_pendientes_subconj (e : Eleccion) (b : Bool) :
    ∀ p ∈ ((e.procesar_siguiente_usuario_pendiente b).2).usuarios_pendientes,
      p ∈ e.usuarios_pendientes := by
  unfold Eleccion.procesar_siguiente_usuario_pendiente
  repeat' split
  all_goals intro p hp
  all_goals simp_all

/-- Where each candidate record after a queue-processing step comes from:
it was already stored, or its identity heads the pending queue. -/
theorem procesar_candidatos_origen (e : Eleccion) (b : Bool) :
    ∀ c ∈ ((e.procesar_siguiente_usuario_pendiente b).2).candidatos,
      c ∈ e.candidatos ∨ ∃ p ∈ e.usuarios_pendientes, CandidatoConteo.id c = p.1 := by
  unfold Eleccion.procesar_siguiente_usuario_pendiente
  repeat' split
  all_goals intro c hc
  all_goals try simp_all
  rcases hc with h | h
  · exact Or.inl h
  · subst h
    simp

/-- The results memoizer only ever writes the `resultados` field. -/
theorem resultados_votacion_campos (e : Eleccion) (ts : Nat) :
    ((e.obtener_resultados_votacion ts).2).candidatos = e.candidatos ∧
    ((e.obtener_resultados_votacion ts).2).votantes = e.votantes ∧
    ((e.obtener_resultados_votacion ts).2).usuarios_pendientes = e.usuarios_pendientes ∧
    ((e.obtener_resultados_votacion ts).2).usuarios_rechazados = e.usuarios_rechazados ∧
    ((e.obtener_resultados_votacion ts).2).fecha_final = e.fecha_final ∧
    ((e.obtener_resultados_votacion ts).2).votacion_iniciada = e.votacion_iniciada := by
  unfold Eleccion.obtener_resultados_votacion
  repeat' split
  all_goals simp

/-- An election selected by id is stored in the election list. -/
theorem obtener_eleccion_mem {s : SistemaElecciones} {eid : Nat} {e : Eleccion}
    (h : s.obtener_eleccion_por_id eid = some e) : e ∈ s.elecciones := by
  unfold SistemaElecciones.obtener_eleccion_por_id at h
  split at h
  · exact List.getElem?_mem h
  · simp at h

/-- Elections in an updated list come from the old list or are the update. -/
theorem mem_updateEleccion {s : SistemaElecciones} {eid : Nat} {e' : Eleccion} :
    ∀ x ∈ (s.updateEleccion eid e').elecciones, x ∈ s.elecciones ∨ x = e' :=
  fun _ hx => List.mem_or_eq_of_mem_set hx

/-- Every election already stored satisfies both origin predicates. -/
theorem origen_self {s : SistemaElecciones} {x : Eleccion} (hx : x ∈ s.elecciones) :
    origenPendiente s x ∧ origenCandidato s x := by
  constructor
  · intro p hp
    exact Or.inl ⟨x, hx, hp⟩
  · intro c hc
    exact Or.inl ⟨x, hx, c, hc, rfl⟩

/-- One step of the C10 invariant: if users only grow and every election of
the successor state draws its pending entries and candidates from the old
state or from registered identities, the invariant carries over. -/
theorem inv_step {s s' : SistemaElecciones}
    (hu : ∀ u ∈ s.usuarios, u ∈ SistemaElecciones.usuarios s')
    (hx : ∀ x ∈ SistemaElecciones.elecciones s', origenPendiente s x ∧ origenCandidato s x)
    (hinv : candidatosRegistrados s) : candidatosRegistrados s' := by
  have hreg : ∀ id, registradoEnSistema s id → registradoEnSistema s' id := by
    rintro id ⟨u, hu', rfl⟩
    exact ⟨u, hu u hu', rfl⟩
  intro x hxm
  obtain ⟨hpend, hcand⟩ := hx x hxm
  constructor
  · intro p hp
    rcases hpend p hp with ⟨e0, he0, hp0⟩ | hr
    · exact hreg _ ((hinv e0 he0).1 p hp0)
    · exact hreg _ hr
  · intro c hc
    rcases hcand c hc with ⟨e0, he0, c0, hc0, hid⟩ | ⟨e0, he0, p, hp0, hid⟩ | hr
    · rw [hid]
      exact hreg _ ((hinv e0 he0).2 c0 hc0)
    · rw [hid]
      exact hreg _ ((hinv e0 he0).1 p hp0)
    · exact hreg _ hr

/-- A caller passing the `es_usuario_registrado` guard is a registered user. -/
theorem registrado_of_es {s : SistemaElecciones} {caller : AccountId}
    (h : s.es_usuario_registrado caller = true) : registradoEnSistema s caller := by
  unfold SistemaElecciones.es_usuario_registrado at h
  rw [List.any_eq_true] at h
  obtain ⟨u, hu, he⟩ := h
  exact ⟨u, hu, by simpa using he⟩

/-- Equal identity projections give, per element, a stored record with the
same owner identity. -/
theorem mem_id_of_map_identidad {l1 l2 : List CandidatoConteo}
    (h : l1.map identidadCandidato = l2.map identidadCandidato) :
    ∀ c ∈ l1, ∃ c0 ∈ l2, CandidatoConteo.id c = CandidatoConteo.id c0 := by
  intro c hc
  have hm : identidadCandidato c ∈ l2.map identidadCandidato :=
    h ▸ List.mem_map_of_mem _ hc
  obtain ⟨c0, hc0, he⟩ := List.mem_map.mp hm
  refine ⟨c0, hc0, ?_⟩
  have := congrArg Prod.fst he
  simpa [identidadCandidato] using this.symm

/-- Origin lemma for `registrarse`: users unchanged, elections unchanged. -/
theorem registrarse_origen (s : SistemaElecciones) (caller : AccountId) (n a d : String) :
    (∀ u ∈ s.usuarios, u ∈ ((s.registrarse caller n a d).2).usuarios) ∧
    ∀ x ∈ ((s.registrarse caller n a d).2).elecciones,
      origenPendiente s x ∧ origenCandidato s x := by
  unfold SistemaElecciones.registrarse
  repeat' split
  all_goals exact ⟨fun u hu => hu, fun x hx => origen_self hx⟩

/-- Origin lemma for `activar_registro`. -/
theorem activar_origen (s : SistemaElecciones) (caller : AccountId) :
    (∀ u ∈ s.usuarios, u ∈ ((s.activar_registro caller).2).usuarios) ∧
    ∀ x ∈ ((s.activar_registro caller).2).elecciones,
      origenPendiente s x ∧ origenCandidato s x := by
  unfold SistemaElecciones.activar_registro
  repeat' split
  all_goals exact ⟨fun u hu => hu, fun x hx => origen_self hx⟩

/-- Origin lemma for `desactivar_registro`. -/
theorem desactivar_origen (s : SistemaElecciones) (caller : AccountId) :
    (∀ u ∈ s.usuarios, u ∈ ((s.desactivar_registro caller).2).usuarios) ∧
    ∀ x ∈ ((s.desactivar_registro caller).2).elecciones,
      origenPendiente s x ∧ origenCandidato s x := by
  unfold SistemaElecciones.desactivar_registro
  repeat' split
  all_goals exact ⟨fun u hu => hu, fun x hx => origen_self hx⟩

/-- Origin lemma for `transferir_administrador`. -/
theorem transferir_origen (s : SistemaElecciones) (caller id : AccountId) :
    (∀ u ∈ s.usuarios, u ∈ ((s.transferir_administrador caller id).2).usuarios) ∧
    ∀ x ∈ ((s.transferir_administrador caller id).2).elecciones,
      origenPendiente s x ∧ origenCandidato s x := by
  unfold SistemaElecciones.transferir_administrador
  repeat' split
  all_goals exact ⟨fun u hu => hu, fun x hx => origen_self hx⟩

/-- Origin lemma for `asignar_generador_reportes`. -/
theorem asignar_origen (s : SistemaElecciones) (caller id : AccountId) :
    (∀ u ∈ s.usuarios, u ∈ ((s.asignar_generador_reportes caller id).2).usuarios) ∧
    ∀ x ∈ ((s.asignar_generador_reportes caller id).2).elecciones,
      origenPendiente s x ∧ origenCandidato s x := by
  unfold SistemaElecciones.asignar_generador_reportes
  repeat' split
  all_goals exact ⟨fun u hu => hu, fun x hx => origen_self hx⟩

/-- Origin lemma for the global admission queue processor. -/
theorem procesar_sistema_origen (s : SistemaElecciones) (caller : AccountId) (b : Bool) :
    (∀ u ∈ s.usuarios, u ∈ ((s.procesar_siguiente_usuario_pendiente caller b).2).usuarios) ∧
    ∀ x ∈ ((s.procesar_siguiente_usuario_pendiente caller b).2).elecciones,
      origenPendiente s x ∧ origenCandidato s x := by
  unfold SistemaElecciones.procesar_siguiente_usuario_pendiente
  repeat' split
  all_goals refine ⟨fun u hu => ?_, fun x hx => origen_self hx⟩
  all_goals simp [hu]

/-- Origin lemma for `crear_eleccion`: the new election is empty. -/
theorem crear_origen (s : SistemaElecciones) (caller : AccountId) (fi ff : Option Nat) :
    (∀ u ∈ s.usuarios, u ∈ ((s.crear_eleccion caller fi ff).2).usuarios) ∧
    ∀ x ∈ ((s.crear_eleccion caller fi ff).2).elecciones,
      origenPendiente s x ∧ origenCandidato s x := by
  unfold SistemaElecciones.crear_eleccion
  repeat' split
  all_goals refine ⟨fun u hu => hu, fun x hx => ?_⟩
  all_goals try exact origen_self hx
  rcases List.mem_append.mp hx with h | h
  · exact origen_self h
  · have hx' : Eleccion.usuarios_pendientes x = [] ∧ Eleccion.candidatos x = [] := by
      simp at h
      subst h
      exact ⟨rfl, rfl⟩
    constructor
    · intro p hp
      rw [hx'.1] at hp
      simp at hp
    · intro c hc
      rw [hx'.2] at hc
      simp at hc

/-- A successful admission-time validation returns the stored election. -/
theorem validar_ok_mem {s : SistemaElecciones} {eid ts : Nat} {caller : AccountId}
    {e : Eleccion} (h : s.validar_estado_eleccion eid ts caller = .ok e) :
    s.obtener_eleccion_por_id eid = some e := by
  unfold SistemaElecciones.validar_estado_eleccion at h
  split at h
  · simp at h
  · rename_i e0 heq
    split at h
    · simp at h
    · split at h
      · simp at h
      · split at h
        · simp at h
        · simp only [Except.ok.injEq] at h
          rw [← h]
          exact heq

/-- Origin lemma for `iniciar_votacion`. -/
theorem iniciar_origen (s : SistemaElecciones) (caller : AccountId) (ts eid : Nat) :
    (∀ u ∈ s.usuarios, u ∈ ((s.iniciar_votacion caller ts eid).2).usuarios) ∧
    ∀ x ∈ ((s.iniciar_votacion caller ts eid).2).elecciones,
      origenPendiente s x ∧ origenCandidato s x := by
  unfold SistemaElecciones.iniciar_votacion
  split
  · exact ⟨fun u hu => hu, fun x hx => origen_self hx⟩
  · split
    · rename_i e heq
      split
      · exact ⟨fun u hu => hu, fun x hx => origen_self hx⟩
      · split
        · exact ⟨fun u hu => hu, fun x hx => origen_self hx⟩
        · split
          · exact ⟨fun u hu => hu, fun x hx => origen_self hx⟩
          · refine ⟨fun u hu => hu, fun x hx => ?_⟩
            rcases mem_updateEleccion x hx with h | h
            · exact origen_self h
            · subst h
              have hem := obtener_eleccion_mem heq
              exact ⟨fun p hp => Or.inl ⟨e, hem, hp⟩,
                fun c hc => Or.inl ⟨e, hem, c, hc, rfl⟩⟩
    · exact ⟨fun u hu => hu, fun x hx => origen_self hx⟩

/-- Origin lemma for `obtener_resultados`. -/
theorem resultados_origen (s : SistemaElecciones) (ts eid : Nat) :
    (∀ u ∈ s.usuarios, u ∈ ((s.obtener_resultados ts eid).2).usuarios) ∧
    ∀ x ∈ ((s.obtener_resultados ts eid).2).elecciones,
      origenPendiente s x ∧ origenCandidato s x := by
  unfold SistemaElecciones.obtener_resultados
  split
  · exact ⟨fun u hu => hu, fun x hx => origen_self hx⟩
  · rename_i e heq
    have hem := obtener_eleccion_mem heq
    have hcampos := resultados_votacion_campos e ts
    split
    · rename_i e2 heq2
      have h2 : (e.obtener_resultados_votacion ts).2 = e2 := by rw [heq2]
      refine ⟨fun u hu => hu, fun x hx => ?_⟩
      rcases mem_updateEleccion x hx with h | h
      · exact origen_self h
      · subst h
        constructor
        · intro p hp
          rw [← h2, hcampos.2.2.1] at hp
          exact Or.inl ⟨e, hem, hp⟩
        · intro c hc
          rw [← h2, hcampos.1] at hc
          exact Or.inl ⟨e, hem, c, hc, rfl⟩
    · rename_i resultados e2 heq2
      have h2 : (e.obtener_resultados_votacion ts).2 = e2 := by rw [heq2]
      refine ⟨fun u hu => hu, fun x hx => ?_⟩
      rcases mem_updateEleccion x hx with h | h
      · exact origen_self h
      · subst h
        constructor
        · intro p hp
          rw [← h2, hcampos.2.2.1] at hp
          exact Or.inl ⟨e, hem, hp⟩
        · intro c hc
          rw [← h2, hcampos.1] at hc
          exact Or.inl ⟨e, hem, c, hc, rfl⟩

/-- Origin lemma for the per-election admission processor. -/
theorem procesar_eleccion_origen (s : SistemaElecciones) (caller : AccountId)
    (eid : Nat) (b : Bool) :
    (∀ u ∈ s.usuarios, u ∈ ((s.procesar_usuarios_en_una_eleccion caller eid b).2).usuarios) ∧
    ∀ x ∈ ((s.procesar_usuarios_en_una_eleccion caller eid b).2).elecciones,
      origenPendiente s x ∧ origenCandidato s x := by
  unfold SistemaElecciones.procesar_usuarios_en_una_eleccion
  split
  · exact ⟨fun u hu => hu, fun x hx => origen_self hx⟩
  · split
    · exact ⟨fun u hu => hu, fun x hx => origen_self hx⟩
    · rename_i e heq
      have hem := obtener_eleccion_mem heq
      refine ⟨fun u hu => hu, fun x hx => ?_⟩
      rcases mem_updateEleccion x hx with h | h
      · exact origen_self h
      · subst h
        constructor
        · intro p hp
          exact Or.inl ⟨e, hem, procesar_pendientes_subconj e b p hp⟩
        · intro c hc
          rcases procesar_candidatos_origen e b c hc with h1 | ⟨p, hp, hid⟩
          · exact Or.inl ⟨e, hem, c, h1, rfl⟩
          · exact Or.inr (Or.inl ⟨e, hem, p, hp, hid⟩)

/-- Origin lemma for `ingresar_a_eleccion`: the appended pending entry is the
registered caller. -/
theorem ingresar_origen (s : SistemaElecciones) (caller : AccountId) (ts eid : Nat)
    (tipo : TipoDeUsuario) :
    (∀ u ∈ s.usuarios, u ∈ ((s.ingresar_a_eleccion caller ts eid tipo).2).usuarios) ∧
    ∀ x ∈ ((s.ingresar_a_eleccion caller ts eid tipo).2).elecciones,
      origenPendiente s x ∧ origenCandidato s x := by
  unfold SistemaElecciones.ingresar_a_eleccion
  split
  · exact ⟨fun u hu => hu, fun x hx => origen_self hx⟩
  · rename_i hreg0
    have hreg : s.es_usuario_registrado caller = true := not_not.mp hreg0
    split
    · exact ⟨fun u hu => hu, fun x hx => origen_self hx⟩
    · rename_i e hok
      have hem := obtener_eleccion_mem (validar_ok_mem hok)
      split
      · exact ⟨fun u hu => hu, fun x hx => origen_self hx⟩
      · split
        · exact ⟨fun u hu => hu, fun x hx => origen_self hx⟩
        · refine ⟨fun u hu => hu, fun x hx => ?_⟩
          rcases mem_updateEleccion x hx with h | h
          · exact origen_self h
          · subst h
            constructor
            · intro p hp
              rcases List.mem_append.mp hp with h1 | h1
              · exact Or.inl ⟨e, hem, h1⟩
              · simp at h1
                subst h1
                exact Or.inr (registrado_of_es hreg)
            · intro c hc
              exact Or.inl ⟨e, hem, c, hc, rfl⟩

/-- Full case analysis of `votar_a_candidato_privado`: an early failure
leaves the system unchanged; otherwise the targeted election — with its
`votacion_iniciada` flag possibly just switched on — is written back, either
after the window check fails or after delegating to `votar_candidato`. -/
theorem votar_a_candidato_casos (s : SistemaElecciones) (caller : AccountId)
    (ts eid cid : Nat) :
    ((s.votar_a_candidato caller ts eid cid).2 = s ∧
     ((s.es_usuario_registrado caller = false ∧
       (s.votar_a_candidato caller ts eid cid).1 = .error mensajeNoRegistrado) ∨
      (s.obtener_eleccion_por_id eid = none ∧
       (s.votar_a_candidato caller ts eid cid).1 =
         .error "No existe una elección con ese id.") ∨
      (∃ e, s.obtener_eleccion_por_id eid = some e ∧ e.votacion_iniciada = false ∧
        ts < e.fecha_inicio ∧
        (s.votar_a_candidato caller ts eid cid).1 =
          .error "Todavía no es la fecha para la votación."))) ∨
    (∃ e e1, s.obtener_eleccion_por_id eid = some e ∧
      s.es_usuario_registrado caller = true ∧
      ((e.votacion_iniciada = true ∧ e1 = e) ∨
       (e.votacion_iniciada = false ∧ e.fecha_inicio ≤ ts ∧
         e1 = { e with votacion_iniciada := true })) ∧
      ((e1.fecha_final < ts ∧
         s.votar_a_candidato caller ts eid cid =
           (.error "La votación ya finalizó.", s.updateEleccion eid e1)) ∨
       (ts ≤ e1.fecha_final ∧
         s.votar_a_candidato caller ts eid cid =
           ((e1.votar_candidato caller cid).1,
            s.updateEleccion eid (e1.votar_candidato caller cid).2)))) := by
  unfold SistemaElecciones.votar_a_candidato
  split
  · rename_i h
    refine Or.inl ⟨rfl, Or.inl ⟨?_, rfl⟩⟩
    revert h
    cases s.es_usuario_registrado caller <;> simp
  · rename_i h
    have hreg : s.es_usuario_registrado caller = true := not_not.mp h
    split
    · rename_i heq
      exact Or.inl ⟨rfl, Or.inr (Or.inl ⟨heq, rfl⟩)⟩
    · rename_i e heq
      split
      · rename_i hcond
        exact Or.inl ⟨rfl, Or.inr (Or.inr ⟨e, heq, hcond.1, hcond.2, rfl⟩)⟩
      · rename_i hcond
        refine Or.inr ⟨e, ?_⟩
        by_cases hi : e.votacion_iniciada = true
        · rw [if_pos hi]
          refine ⟨e, heq, hreg, Or.inl ⟨hi, rfl⟩, ?_⟩
          unfold SistemaElecciones.votarConIniciada
          split
          · rename_i hf
            exact Or.inl ⟨by omega, rfl⟩
          · rename_i hf
            exact Or.inr ⟨by omega, rfl⟩
        · rw [if_neg hi]
          have hi' : e.votacion_iniciada = false := by
            revert hi; cases e.votacion_iniciada <;> simp
          have hts : e.fecha_inicio ≤ ts := by
            by_contra h1
            exact hcond ⟨hi', by omega⟩
          refine ⟨{ e with votacion_iniciada := true }, heq, hreg,
            Or.inr ⟨hi', hts, rfl⟩, ?_⟩
          unfold SistemaElecciones.votarConIniciada
          split
          · rename_i hf
            exact Or.inl ⟨by omega, rfl⟩
          · rename_i hf
            exact Or.inr ⟨by omega, rfl⟩

/-- Origin lemma for `votar_a_candidato`. -/
theorem votar_origen (s : SistemaElecciones) (caller : AccountId) (ts eid cid : Nat) :
    (∀ u ∈ s.usuarios, u ∈ ((s.votar_a_candidato caller ts eid cid).2).usuarios) ∧
    ∀ x ∈ ((s.votar_a_candidato caller ts eid cid).2).elecciones,
      origenPendiente s x ∧ origenCandidato s x := by
  rcases votar_a_candidato_casos s caller ts eid cid with ⟨hs, -⟩ | ⟨e, e1, heq, -, he1, hres⟩
  · rw [hs]
    exact ⟨fun u hu => hu, fun x hx => origen_self hx⟩
  · have hem := obtener_eleccion_mem heq
    have hpend1 : Eleccion.usuarios_pendientes e1 = Eleccion.usuarios_pendientes e := by
      rcases he1 with ⟨-, rfl⟩ | ⟨-, -, rfl⟩ <;> rfl
    have hcand1 : Eleccion.candidatos e1 = Eleccion.candidatos e := by
      rcases he1 with ⟨-, rfl⟩ | ⟨-, -, rfl⟩ <;> rfl
    rcases hres with ⟨-, hr⟩ | ⟨-, hr⟩
    · have hr2 : (s.votar_a_candidato caller ts eid cid).2 = s.updateEleccion eid e1 := by
        rw [hr]
      rw [hr2]
      refine ⟨fun u hu => hu, fun x hx => ?_⟩
      rcases mem_updateEleccion x hx with h | h
      · exact origen_self h
      · subst h
        constructor
        · intro p hp
          rw [hpend1] at hp
          exact Or.inl ⟨e, hem, hp⟩
        · intro c hc
          rw [hcand1] at hc
          exact Or.inl ⟨e, hem, c, hc, rfl⟩
    · have hr2 : (s.votar_a_candidato caller ts eid cid).2 =
          s.updateEleccion eid (e1.votar_candidato caller cid).2 := by
        rw [hr]
      rw [hr2]
      refine ⟨fun u hu => hu, fun x hx => ?_⟩
      rcases mem_updateEleccion x hx with h | h
      · exact origen_self h
      · subst h
        constructor
        · intro p hp
          rw [(votar_candidato_resto e1 caller cid).1, hpend1] at hp
          exact Or.inl ⟨e, hem, hp⟩
        · intro c hc
          obtain ⟨c0, hc0, hid⟩ :=
            mem_id_of_map_identidad (votar_candidato_map_identidad e1 caller cid) c hc
          rw [hcand1] at hc0
          exact Or.inl ⟨e, hem, c0, hc0, hid⟩

/-- The C10 invariant holds in every reachable state. -/
theorem alcanzable_inv {s : SistemaElecciones} (h : Alcanzable s) :
    candidatosRegistrados s := by
  induction h with
  | nuevo caller =>
    intro x hx
    simp [SistemaElecciones.nuevo] at hx
  | registrarse s h caller nombre apellido dni ih =>
    exact inv_step (registrarse_origen s caller nombre apellido dni).1
      (registrarse_origen s caller nombre apellido dni).2 ih
  | procesar_pendiente s h caller aceptar ih =>
    exact inv_step (procesar_sistema_origen s caller aceptar).1
      (procesar_sistema_origen s caller aceptar).2 ih
  | crear s h caller fi ff ih =>
    exact inv_step (crear_origen s caller fi ff).1 (crear_origen s caller fi ff).2 ih
  | iniciar s h caller ts eid ih =>
    exact inv_step (iniciar_origen s caller ts eid).1 (iniciar_origen s caller ts eid).2 ih
  | procesar_eleccion s h caller eid aceptar ih =>
    exact inv_step (procesar_eleccion_origen s caller eid aceptar).1
      (procesar_eleccion_origen s caller eid aceptar).2 ih
  | ingresar s h caller ts eid tipo ih =>
    exact inv_step (ingresar_origen s caller ts eid tipo).1
      (ingresar_origen s caller ts eid tipo).2 ih
  | votar s h caller ts eid cid ih =>
    exact inv_step (votar_origen s caller ts eid cid).1 (votar_origen s caller ts eid cid).2 ih
  | activar s h caller ih =>
    exact inv_step (activar_origen s caller).1 (activar_origen s caller).2 ih
  | desactivar s h caller ih =>
    exact inv_step (desactivar_origen s caller).1 (desactivar_origen s caller).2 ih
  | transferir s h caller id ih =>
    exact inv_step (transferir_origen s caller id).1 (transferir_origen s caller id).2 ih
  | asignar s h caller id ih =>
    exact inv_step (asignar_origen s caller id).1 (asignar_origen s caller id).2 ih
  | resultados s h ts eid ih =>
    exact inv_step (resultados_origen s ts eid).1 (resultados_origen s ts eid).2 ih

/-! ## Claims -/

/-- C10: in every reachable state of the elections contract, the `AccountId`
of every stored `CandidatoConteo` is a globally registered user, so the
unconditional profile lookup (`.expect`) in
`obtener_informacion_candidato_eleccion` never panics (never returns the
`none` that models the panic). -/
theorem claim_C10_perfil_candidato_existe {s : SistemaElecciones} (h : Alcanzable s)
    (eid cid : Nat) : s.obtener_informacion_candidato_eleccion eid cid ≠ none := by
  unfold SistemaElecciones.obtener_informacion_candidato_eleccion
  split
  · simp
  · rename_i e heq
    split
    · simp
    · rename_i candidato hcand
      split
      · rename_i hu
        exfalso
        have hem := obtener_eleccion_mem heq
        have hc : candidato ∈ Eleccion.candidatos e := by
          unfold Eleccion.obtener_informacion_candidato at hcand
          split at hcand
          · simp at hcand
          · split at hcand
            · simp at hcand
            · exact List.getElem?_mem hcand
        obtain ⟨u, hum, hid⟩ := (alcanzable_inv h e hem).2 candidato hc
        unfold SistemaElecciones.obtener_usuario at hu
        rw [List.find?_eq_none] at hu
        exact (hu u hum) (by simp [hid])
      · simp

/-- Witness for C10 at the freshly constructed contract state. -/
theorem claim_C10_witness :
    (SistemaElecciones.nuevo 0).obtener_informacion_candidato_eleccion 1 1 ≠ none :=
  claim_C10_perfil_candidato_existe (Alcanzable.nuevo 0) 1 1

/-- C2: when `votar_candidato` passes every eligibility check (candidate
exists, the caller's voter record has `voto_emitido = false`) but the target
tally sits at `u32::MAX`, the call fails with the overflow error and the
`voto_emitido` flag set before the increment is rolled back, leaving the
election state exactly unchanged. -/
theorem claim_C2_overflow_rollback (e : Eleccion) (vid : AccountId) (cid : Nat)
    (v : Votante)
    (hex : e.existe_candidato cid = true)
    (hfind : e.votantes.find? (fun x => x.id == vid) = some v)
    (hnv : v.voto_emitido = false)
    (hmax : CandidatoConteo.votos_totales (e.candidatos.getD (cid - 1) default) =
      U32LIMIT - 1) :
    e.votar_candidato vid cid =
      (.error "Se produjo un overflow al intentar sumar el voto.", e) := by
  have hcid : ¬ cid = 0 := by
    unfold Eleccion.existe_candidato at hex
    simp at hex
    omega
  have hadd : u32checkedAdd
      (CandidatoConteo.votos_totales (e.candidatos.getD (cid - 1) default)) 1 = none := by
    rw [hmax]
    unfold u32checkedAdd U32LIMIT
    norm_num
  rw [List.getD_eq_getElem?_getD] at hadd
  have hround := marcarVoto_roundtrip hfind hnv
  simp [Eleccion.votar_candidato, hex, hfind, hnv, hcid, hadd, hround]

/-- Witness for C2: a concrete election whose only candidate holds
`u32::MAX` votes. -/
theorem claim_C2_witness :
    eleccionLlena.votar_candidato 1 1 =
      (.error "Se produjo un overflow al intentar sumar el voto.", eleccionLlena) :=
  claim_C2_overflow_rollback eleccionLlena 1 1 ⟨1, false⟩ (by decide) (by decide) rfl
    (by decide)

/-- C3: once the end time has been reached, the first `getResults` call
computes exactly `(len voters, count hasVoted, per-candidate pairs in list
order)` and caches it, and any later call — with a later clock reading and
after arbitrary changes to every other field of the election — returns that
same cached payload. -/
theorem claim_C3_resultados_memoizados (e : Eleccion) (ts ts2 : Nat)
    (hfin : e.fecha_final ≤ ts) (hmono : ts ≤ ts2) (hnone : e.resultados = none) :
    e.obtener_resultados_votacion ts =
      (some (resultadosCalculados e),
        { e with resultados := some (resultadosCalculados e) }) ∧
    ∀ (cand : List CandidatoConteo) (vot : List Votante)
      (rech : List AccountId) (pend : List (AccountId × TipoDeUsuario))
      (ini : Bool) (id2 fi : Nat),
      (Eleccion.obtener_resultados_votacion
        { id := id2, candidatos := cand, votantes := vot, usuarios_rechazados := rech,
          usuarios_pendientes := pend, votacion_iniciada := ini, fecha_inicio := fi,
          fecha_final := e.fecha_final,
          resultados := some (resultadosCalculados e) } ts2).1 =
        some (resultadosCalculados e) := by
  constructor
  · unfold Eleccion.obtener_resultados_votacion
    rw [if_neg (by omega), hnone]
  · intro cand vot rech pend ini id2 fi
    unfold Eleccion.obtener_resultados_votacion
    rw [if_neg (show ¬ (e.fecha_final > ts2) by omega)]

/-- Witness for C3 on the empty finished election. -/
theorem claim_C3_witness :
    eleccionVacia.obtener_resultados_votacion 0 =
      (some (resultadosCalculados eleccionVacia),
        { eleccionVacia with resultados := some (resultadosCalculados eleccionVacia) }) :=
  (claim_C3_resultados_memoizados eleccionVacia 0 0 (by decide) (by decide) rfl).1

/-- C9: an accepted candidate admission appends a candidate numbered
`len(candidates before) + 1` with a zero tally, and no election operation
ever renumbers, reorders or drops the already assigned (owner, number)
pairs — queue processing only appends, vote casting and the results
memoizer leave them untouched. -/
theorem claim_C9_numeracion_candidatos :
    (∀ (e : Eleccion) (u : AccountId) (resto : List (AccountId × TipoDeUsuario))
       (r : String) (e2 : Eleccion),
       Eleccion.usuarios_pendientes e = (u, TipoDeUsuario.CANDIDATO) :: resto →
       e.procesar_siguiente_usuario_pendiente true = (.ok r, e2) →
       Eleccion.candidatos e2 = e.candidatos ++
         [{ id := u, candidato_id := e.candidatos.length + 1, votos_totales := 0 }]) ∧
    (∀ (e : Eleccion) (b : Bool),
       (e.candidatos.map identidadCandidato) <+:
         (((e.procesar_siguiente_usuario_pendiente b).2).candidatos.map identidadCandidato)) ∧
    (∀ (e : Eleccion) (vid : AccountId) (cid : Nat),
       ((e.votar_candidato vid cid).2).candidatos.map identidadCandidato =
         e.candidatos.map identidadCandidato) ∧
    (∀ (e : Eleccion) (ts : Nat),
       ((e.obtener_resultados_votacion ts).2).candidatos = e.candidatos) := by
  refine ⟨?_, ?_, votar_candidato_map_identidad,
    fun e ts => (resultados_votacion_campos e ts).1⟩
  · intro e u resto r e2 hp hc
    unfold Eleccion.procesar_siguiente_usuario_pendiente at hc
    rw [hp] at hc
    simp only [if_true] at hc
    cases hadd : u32checkedAdd e.candidatos.length 1 with
    | none =>
      rw [hadd] at hc
      simp at hc
    | some cid =>
      rw [hadd] at hc
      have hcid : cid = e.candidatos.length + 1 := by
        unfold u32checkedAdd at hadd
        split at hadd
        · simp at hadd
          omega
        · simp at hadd
      simp only [Prod.mk.injEq] at hc
      rw [← hc.2, hcid]
  · intro e b
    unfold Eleccion.procesar_siguiente_usuario_pendiente
    repeat' split
    all_goals simp

/-- Witness for C9: accepting the pending candidate of a one-candidate
election assigns number 2. -/
theorem claim_C9_witness :
    Eleccion.candidatos
        ((eleccionConPendiente.procesar_siguiente_usuario_pendiente true).2) =
      eleccionConPendiente.candidatos ++
        [{ id := 5, candidato_id := eleccionConPendiente.candidatos.length + 1,
           votos_totales := 0 }] :=
  claim_C9_numeracion_candidatos.1 eleccionConPendiente 5 []
    "Usuario agregado exitosamente."
    ((eleccionConPendiente.procesar_siguiente_usuario_pendiente true).2) rfl rfl

/-- C5 (code-bug evidence): on a finished election with zero voters the
participation report reaches `u32::div_ceil` with a zero divisor, and on an
empty candidate list the result report indexes `candidatos[0]`; both
evaluate to the panic marker `none` instead of returning a tagged error. -/
theorem claim_C5_panico_reportes :
    Reporte.reporte_de_participacion_por_eleccion sistemaSinVotantes 9 1 1 = none ∧
    Reporte.reporte_de_resultado_por_eleccion sistemaSinVotantes 9 1 1 = none := by
  constructor
  · rfl
  · unfold Reporte.reporte_de_resultado_por_eleccion
    have h : sistemaSinVotantes.obtener_candidatos_eleccion_por_id 9 1 1 = .ok [] := rfl
    rw [h]
    simp [List.mergeSort_nil]

/-- C7 (amended): whenever the voter data of an election is available with at
least one voter and the effective-vote count times 100 still fits in `u32`,
the participation report returns the effective count together with the
ceiling of `effective * 100 / total` (characterized by the two ceiling
bounds); without the `u32` bound the checked multiplication panics instead. -/
theorem claim_C7_participacion (s : SistemaElecciones) (caller : AccountId)
    (ts eid : Nat) (l : List (AccountId × Bool))
    (hv : s.obtener_votantes_eleccion_por_id caller ts eid = .ok l)
    (hne : l.length ≠ 0)
    (hof : (l.filter (fun vot => vot.2)).length * 100 < U32LIMIT) :
    ∃ p, Reporte.reporte_de_participacion_por_eleccion s caller ts eid =
        some (.ok ((l.filter (fun vot => vot.2)).length, p)) ∧
      (l.filter (fun vot => vot.2)).length * 100 ≤ p * l.length ∧
      p * l.length < (l.filter (fun vot => vot.2)).length * 100 + l.length := by
  have hb : 0 < l.length := Nat.pos_of_ne_zero hne
  have hm : u32mul ((l.filter (fun vot => vot.2)).length) 100 =
      some ((l.filter (fun vot => vot.2)).length * 100) := by
    unfold u32mul
    rw [if_pos hof]
  have hd : u32divCeil ((l.filter (fun vot => vot.2)).length * 100) l.length =
      some ((l.filter (fun vot => vot.2)).length * 100 / l.length +
        if ((l.filter (fun vot => vot.2)).length * 100) % l.length = 0 then 0 else 1) := by
    unfold u32divCeil
    rw [if_neg hne]
  unfold Reporte.reporte_de_participacion_por_eleccion
  rw [hv]
  simp only [hm, hd]
  refine ⟨_, rfl, ?_, ?_⟩
  · have h1 := Nat.div_add_mod' ((l.filter (fun vot => vot.2)).length * 100) l.length
    have h2 : ((l.filter (fun vot => vot.2)).length * 100) % l.length < l.length :=
      Nat.mod_lt _ hb
    by_cases hz : ((l.filter (fun vot => vot.2)).length * 100) % l.length = 0
    · rw [if_pos hz, Nat.add_zero, Nat.div_mul_cancel (Nat.dvd_of_mod_eq_zero hz)]
    · rw [if_neg hz, Nat.add_mul, Nat.one_mul]
      omega
  · have h1 := Nat.div_add_mod' ((l.filter (fun vot => vot.2)).length * 100) l.length
    have h2 : ((l.filter (fun vot => vot.2)).length * 100) % l.length < l.length :=
      Nat.mod_lt _ hb
    by_cases hz : ((l.filter (fun vot => vot.2)).length * 100) % l.length = 0
    · rw [if_pos hz, Nat.add_zero, Nat.div_mul_cancel (Nat.dvd_of_mod_eq_zero hz)]
      omega
    · rw [if_neg hz, Nat.add_mul, Nat.one_mul]
      omega

/-- Witness for C7: 7 voters, 5 effective votes, participation 72 percent. -/
theorem claim_C7_witness :
    (∃ p, Reporte.reporte_de_participacion_por_eleccion sistemaReportes 9 1 1 =
        some (.ok ((listaVotantesSiete.filter (fun vot => vot.2)).length, p)) ∧
      (listaVotantesSiete.filter (fun vot => vot.2)).length * 100 ≤
        p * listaVotantesSiete.length ∧
      p * listaVotantesSiete.length <
        (listaVotantesSiete.filter (fun vot => vot.2)).length * 100 +
          listaVotantesSiete.length) ∧
    Reporte.reporte_de_participacion_por_eleccion sistemaReportes 9 1 1 =
      some (.ok (5, 72)) :=
  ⟨claim_C7_participacion sistemaReportes 9 1 1 listaVotantesSiete rfl (by decide)
    (by decide), rfl⟩

/-- The elections list of `sistemaMasivo` resolves id 1 to `eleccionMasiva`. -/
theorem masivo_eleccion : sistemaMasivo.obtener_eleccion_por_id 1 = some eleccionMasiva := rfl

/-- The voter accessor on `sistemaMasivo` returns 42949673 effective votes. -/
theorem masivo_votantes : sistemaMasivo.obtener_votantes_eleccion_por_id 9 1 1 =
    .ok (List.replicate 42949673 ((1 : AccountId), true)) := by
  unfold SistemaElecciones.obtener_votantes_eleccion_por_id
  rw [if_neg (by decide)]
  simp only [masivo_eleccion]
  rw [if_neg (by decide)]
  refine congrArg Except.ok ?_
  show (List.replicate 42949673 (Votante.mk 1 true)).map (fun v => (v.id, v.voto_emitido)) =
    List.replicate 42949673 ((1 : AccountId), true)
  rw [List.map_replicate]

/-- When the effective-vote count makes `effective * 100` overflow `u32`, the
participation report panics. -/
theorem participacion_of_overflow (s : SistemaElecciones) (caller : AccountId)
    (ts eid : Nat) (l : List (AccountId × Bool))
    (hv : s.obtener_votantes_eleccion_por_id caller ts eid = .ok l)
    (hof : ¬ ((l.filter (fun vot => vot.2)).length * 100 < U32LIMIT)) :
    Reporte.reporte_de_participacion_por_eleccion s caller ts eid = none := by
  unfold Reporte.reporte_de_participacion_por_eleccion
  rw [hv]
  have hm : u32mul ((l.filter (fun vot => vot.2)).length) 100 = none := by
    unfold u32mul
    rw [if_neg hof]
  simp only [hm]

/-- The all-voted replicate list filters to itself, and its length times 100
exceeds `u32::MAX`. -/
theorem masivo_overflow : ¬ (((List.replicate 42949673 ((1 : AccountId), true)).filter
    (fun vot => vot.2)).length * 100 < U32LIMIT) := by
  rw [List.filter_replicate_of_pos rfl, List.length_replicate]
  unfold U32LIMIT
  norm_num

/-- Counterexample for C7 as frozen: an election with 42949673 voters who all
voted (`totalVoters ≥ 1`) makes the `u32` product `effectiveVotes * 100`
overflow, so the call panics (`none`) instead of returning the claimed
ceiling pair. -/
theorem claim_C7_counterexample :
    Reporte.reporte_de_participacion_por_eleccion sistemaMasivo 9 1 1 = none :=
  participacion_of_overflow sistemaMasivo 9 1 1 _ masivo_votantes masivo_overflow

/-- Complete case analysis of the lifecycle branches of
`validar_estado_eleccion` for a stored election without the caller in its
pending queue: the already-started error fires whenever the flag is set or
`fecha_inicio < now`, and the ended error is returned exactly when the flag
is unset, `now ≤ fecha_inicio` and `fecha_final < now`. -/
theorem validar_lifecycle_casos (s : SistemaElecciones) (eid ts : Nat) (caller : AccountId)
    (e : Eleccion) (he : s.obtener_eleccion_por_id eid = some e)
    (hp : e.contiene_usuario_pendiente caller = false) :
    ((e.votacion_iniciada = true ∨ e.fecha_inicio < ts) →
      s.validar_estado_eleccion eid ts caller =
        .error "La votación en la elección ya comenzó, no te puedes registrar.") ∧
    (s.validar_estado_eleccion eid ts caller =
        .error "La elección ya finalizó, no te puedes registrar." ↔
      e.votacion_iniciada = false ∧ ts ≤ e.fecha_inicio ∧ e.fecha_final < ts) := by
  unfold SistemaElecciones.validar_estado_eleccion
  simp only [he]
  have h1 : ¬ (e.contiene_usuario_pendiente caller = true) := by
    simp [hp]
  constructor
  · intro hcom
    have hb : (e.votacion_iniciada || decide (e.fecha_inicio < ts)) = true := by
      rcases hcom with h | h <;> simp [h]
    rw [if_neg h1, if_pos hb]
  · constructor
    · intro hres
      by_cases hb : (e.votacion_iniciada || decide (e.fecha_inicio < ts)) = true
      · rw [if_neg h1, if_pos hb] at hres
        injection hres with hm
        exact absurd hm (by decide)
      · have hb' : e.votacion_iniciada = false ∧ ¬ e.fecha_inicio < ts := by
          simpa using hb
        by_cases hf : e.fecha_final < ts
        · exact ⟨hb'.1, by omega, hf⟩
        · rw [if_neg h1, if_neg hb, if_neg hf] at hres
          exact Except.noConfusion hres
    · rintro ⟨hi, hts, hfin⟩
      have hb : ¬ ((e.votacion_iniciada || decide (e.fecha_inicio < ts)) = true) := by
        simp [hi]
        omega
      rw [if_neg h1, if_neg hb, if_pos hfin]

/-- `ingresar_a_eleccion` forwards every error of `validar_estado_eleccion`
unchanged with the state untouched, and — conversely — the election-ended
message can only originate from `validar_estado_eleccion`: none of the
branches after a successful validation produces it. -/
theorem ingresar_propaga_validar (s : SistemaElecciones) (caller : AccountId)
    (ts eid : Nat) (tipo : TipoDeUsuario)
    (hreg : s.es_usuario_registrado caller = true) :
    (∀ m, s.validar_estado_eleccion eid ts caller = .error m →
      s.ingresar_a_eleccion caller ts eid tipo = (.error m, s)) ∧
    ((s.ingresar_a_eleccion caller ts eid tipo).1 =
        .error "La elección ya finalizó, no te puedes registrar." →
      s.validar_estado_eleccion eid ts caller =
        .error "La elección ya finalizó, no te puedes registrar.") := by
  constructor
  · intro m hm
    unfold SistemaElecciones.ingresar_a_eleccion
    rw [if_neg (not_not_intro hreg), hm]
  · unfold SistemaElecciones.ingresar_a_eleccion
    rw [if_neg (not_not_intro hreg)]
    cases hv : s.validar_estado_eleccion eid ts caller with
    | error m =>
      intro h
      have h2 : (Except.error m : Except String String) =
          .error "La elección ya finalizó, no te puedes registrar." := h
      injection h2 with hm
      rw [hm]
    | ok e =>
      intro h
      have h2 : ((if e.usuarios_rechazados.contains caller = true then
            ((Except.error "Ya has sido rechazado no puedes ingresar a la eleccion" :
                Except String String), s)
          else if e.contiene_usuario_pendiente caller = true then
            (.error "No puedes ingresar dos veces a la misma eleccion", s)
          else
            (.ok "Ingresó a la elección correctamente Pendiente de aprobacion del Administrador",
              s.updateEleccion eid
                { e with usuarios_pendientes := e.usuarios_pendientes ++ [(caller, tipo)] })).1 =
          (.error "La elección ya finalizó, no te puedes registrar." :
            Except String String)) := h
      split at h2
      · have h3 : (Except.error "Ya has sido rechazado no puedes ingresar a la eleccion" :
            Except String String) =
            .error "La elección ya finalizó, no te puedes registrar." := h2
        injection h3 with hm
        exact absurd hm (by decide)
      · split at h2
        · have h3 : (Except.error "No puedes ingresar dos veces a la misma eleccion" :
              Except String String) =
              .error "La elección ya finalizó, no te puedes registrar." := h2
          injection h3 with hm
          exact absurd hm (by decide)
        · have h3 : (Except.ok
              "Ingresó a la elección correctamente Pendiente de aprobacion del Administrador" :
              Except String String) =
              .error "La elección ya finalizó, no te puedes registrar." := h2
          exact Except.noConfusion h3

/-- C6 (amended): for a registered caller not already pending in an existing
election, `joinElection` fails with the voting-already-started error —
state unchanged — whenever the election's `votacion_iniciada` flag is true
or `fecha_inicio < now`, regardless of the end date; and it returns the
election-ended error exactly when the flag is unset, `now ≤ fecha_inicio`
and `fecha_final < now` (with the state unchanged then too).  In particular
past both dates on a never-started election the started error is returned,
never the ended one. -/
theorem claim_C6_ingresar_lifecycle (s : SistemaElecciones) (caller : AccountId)
    (ts eid : Nat) (e : Eleccion) (tipo : TipoDeUsuario)
    (hreg : s.es_usuario_registrado caller = true)
    (he : s.obtener_eleccion_por_id eid = some e)
    (hp : e.contiene_usuario_pendiente caller = false) :
    ((e.votacion_iniciada = true ∨ e.fecha_inicio < ts) →
      s.ingresar_a_eleccion caller ts eid tipo =
        (.error "La votación en la elección ya comenzó, no te puedes registrar.", s)) ∧
    ((s.ingresar_a_eleccion caller ts eid tipo).1 =
        .error "La elección ya finalizó, no te puedes registrar." ↔
      e.votacion_iniciada = false ∧ ts ≤ e.fecha_inicio ∧ e.fecha_final < ts) ∧
    (e.votacion_iniciada = false → ts ≤ e.fecha_inicio → e.fecha_final < ts →
      s.ingresar_a_eleccion caller ts eid tipo =
        (.error "La elección ya finalizó, no te puedes registrar.", s)) := by
  obtain ⟨hcom, hiff⟩ := validar_lifecycle_casos s eid ts caller e he hp
  obtain ⟨hfwd, hback⟩ := ingresar_propaga_validar s caller ts eid tipo hreg
  refine ⟨fun h => hfwd _ (hcom h), ⟨fun h => hiff.1 (hback h), fun h => ?_⟩,
    fun h1 h2 h3 => hfwd _ (hiff.2 ⟨h1, h2, h3⟩)⟩
  rw [hfwd _ (hiff.2 h)]

/-- Witness for C6: in the concrete two-election system, joining the started
election fails with the voting-already-started error and leaves the system
unchanged. -/
theorem claim_C6_witness :
    sistemaNoIniciado.ingresar_a_eleccion 1 0 1 TipoDeUsuario.VOTANTE =
      (.error "La votación en la elección ya comenzó, no te puedes registrar.",
        sistemaNoIniciado) :=
  (claim_C6_ingresar_lifecycle sistemaNoIniciado 1 0 1 eleccionVotada
    TipoDeUsuario.VOTANTE (by decide) rfl (by decide)).1 (Or.inl rfl)

/-- Counterexample for C6 as frozen: with `now = 10` past `endTime = 5` on a
never-started election, the code returns the voting-already-started message,
not the election-ended one the claim requires. -/
theorem claim_C6_counterexample :
    (sistemaNoIniciado.ingresar_a_eleccion 1 10 2 TipoDeUsuario.VOTANTE).1 =
      .error "La votación en la elección ya comenzó, no te puedes registrar." ∧
    "La votación en la elección ya comenzó, no te puedes registrar." ≠
      "La elección ya finalizó, no te puedes registrar." := by
  constructor
  · rfl
  · decide

/-- Writing back the unmodified stored election is a no-op. -/
theorem updateEleccion_self {s : SistemaElecciones} {eid : Nat} {e : Eleccion}
    (he : s.obtener_eleccion_por_id eid = some e) : s.updateEleccion eid e = s := by
  unfold SistemaElecciones.obtener_eleccion_por_id at he
  split at he
  · unfold SistemaElecciones.updateEleccion
    rw [set_self_of_getElem? he]
  · simp at he

/-- C4 (amended): a `votar_a_candidato` call that returns an error makes no
persistent state change — with two documented exceptions folded in: the §4.4
`hasVoted` roll-back (already undone inside `votar_candidato`, so the
election is written back unchanged) and the implicit `votacion_iniciada :=
true` flip that the first late vote performs before the remaining checks,
which persists even when the call then errors. -/
theorem claim_C4_error_estado (s : SistemaElecciones) (caller : AccountId)
    (ts eid cid : Nat) (m : String)
    (herr : (s.votar_a_candidato caller ts eid cid).1 = .error m) :
    (s.votar_a_candidato caller ts eid cid).2 = s ∨
    ∃ e, s.obtener_eleccion_por_id eid = some e ∧ e.votacion_iniciada = false ∧
      e.fecha_inicio ≤ ts ∧
      (s.votar_a_candidato caller ts eid cid).2 =
        s.updateEleccion eid { e with votacion_iniciada := true } := by
  rcases votar_a_candidato_casos s caller ts eid cid with ⟨hs, -⟩ | ⟨e, e1, heq, -, he1, hres⟩
  · exact Or.inl hs
  · rcases he1 with ⟨hi, rfl⟩ | ⟨hi, hts, rfl⟩
    · rcases hres with ⟨-, hr⟩ | ⟨-, hr⟩
      · left
        have h0 : (s.votar_a_candidato caller ts eid cid).2 = s.updateEleccion eid e1 := by
          rw [hr]
        rw [h0, updateEleccion_self heq]
      · rcases votar_candidato_casos e1 caller cid with ⟨m2, h2⟩ | ⟨v, vt, -, -, -, -, h2⟩
        · left
          have h0 : (s.votar_a_candidato caller ts eid cid).2 =
              s.updateEleccion eid (e1.votar_candidato caller cid).2 := by
            rw [hr]
          rw [h0, h2]
          exact updateEleccion_self heq
        · exfalso
          have h1 : (s.votar_a_candidato caller ts eid cid).1 =
              (e1.votar_candidato caller cid).1 := by
            rw [hr]
          rw [h2, herr] at h1
          simp at h1
    · rcases hres with ⟨-, hr⟩ | ⟨-, hr⟩
      · right
        exact ⟨e, heq, hi, hts, by rw [hr]⟩
      · rcases votar_candidato_casos { e with votacion_iniciada := true } caller cid with
          ⟨m2, h2⟩ | ⟨v, vt, -, -, -, -, h2⟩
        · right
          refine ⟨e, heq, hi, hts, ?_⟩
          have h0 : (s.votar_a_candidato caller ts eid cid).2 =
              s.updateEleccion eid
                (Eleccion.votar_candidato { e with votacion_iniciada := true } caller cid).2 := by
            rw [hr]
          rw [h0, h2]
        · exfalso
          have h1 : (s.votar_a_candidato caller ts eid cid).1 =
              (Eleccion.votar_candidato { e with votacion_iniciada := true } caller cid).1 := by
            rw [hr]
          rw [h2, herr] at h1
          simp at h1

/-- Witness for C4: an unregistered caller's failed vote leaves the state
unchanged. -/
theorem claim_C4_witness :
    (sistemaNoIniciado.votar_a_candidato 5 0 1 1).2 = sistemaNoIniciado ∨
    ∃ e, sistemaNoIniciado.obtener_eleccion_por_id 1 = some e ∧
      e.votacion_iniciada = false ∧ e.fecha_inicio ≤ 0 ∧
      (sistemaNoIniciado.votar_a_candidato 5 0 1 1).2 =
        sistemaNoIniciado.updateEleccion 1 { e with votacion_iniciada := true } :=
  claim_C4_error_estado sistemaNoIniciado 5 0 1 1 mensajeNoRegistrado rfl

/-- Counterexample for C4 as frozen: a castVote at `now = 10` on the
never-started election with window `[0, 5]` returns an error yet flips the
election's `votacion_iniciada` flag from false to true. -/
theorem claim_C4_counterexample :
    (∃ m, (sistemaNoIniciado.votar_a_candidato 1 10 2 1).1 = Except.error m) ∧
    Eleccion.votacion_iniciada eleccionNoIniciada = false ∧
    (SistemaElecciones.obtener_eleccion_por_id
        ((sistemaNoIniciado.votar_a_candidato 1 10 2 1).2) 2).map
      Eleccion.votacion_iniciada = some true :=
  ⟨⟨"La votación ya finalizó.", rfl⟩, rfl, rfl⟩

/-- A voter whose record already says `voto_emitido` makes `votar_candidato`
fail and leave the election unchanged; when the candidate id is valid the
error is precisely the already-voted message. -/
theorem votar_candidato_ya_voto (e : Eleccion) (vid : AccountId) (cid : Nat) (v : Votante)
    (hv : e.votantes.find? (fun x => x.id == vid) = some v)
    (hvoted : v.voto_emitido = true) :
    ∃ m, e.votar_candidato vid cid = (.error m, e) ∧
      (e.existe_candidato cid = true →
        m = "No se realizó el voto porque ya votaste anteriormente.") := by
  unfold Eleccion.votar_candidato
  split
  · rename_i h
    exact ⟨_, rfl, fun hex => absurd hex h⟩
  · split
    · rename_i heq
      rw [hv] at heq
      simp at heq
    · rename_i votante heq
      rw [hv] at heq
      obtain rfl : votante = v := by
        injection heq with h1
        exact h1.symm
      rw [if_pos hvoted]
      exact ⟨_, rfl, fun _ => rfl⟩

/-- An election selected by id sits at index `eid - 1`. -/
theorem obtener_eleccion_getElem {s : SistemaElecciones} {eid : Nat} {e : Eleccion}
    (h : s.obtener_eleccion_por_id eid = some e) : s.elecciones[eid - 1]? = some e := by
  unfold SistemaElecciones.obtener_eleccion_por_id at h
  split at h
  · exact h
  · simp at h

/-- C1 (amended): once a voter's record in an election says `voto_emitido`,
every later castVote by that voter for that election returns an error and
leaves every election's voter records and candidate tallies unchanged; the
error is specifically the already-voted one whenever the call reaches the
voter check (caller registered, candidate id valid, voting started or past
its start time, and the window not yet over) — later calls outside the
window or with an invalid candidate id fail with the corresponding
lifecycle or candidate error instead. -/
theorem claim_C1_un_solo_voto (s : SistemaElecciones) (caller : AccountId)
    (ts eid cid : Nat) (e : Eleccion) (v : Votante)
    (he : s.obtener_eleccion_por_id eid = some e)
    (hv : e.votantes.find? (fun x => x.id == caller) = some v)
    (hvoted : v.voto_emitido = true) :
    (∃ m, (s.votar_a_candidato caller ts eid cid).1 = .error m) ∧
    ((s.votar_a_candidato caller ts eid cid).2).elecciones.map Eleccion.votantes =
      s.elecciones.map Eleccion.votantes ∧
    ((s.votar_a_candidato caller ts eid cid).2).elecciones.map Eleccion.candidatos =
      s.elecciones.map Eleccion.candidatos ∧
    (s.es_usuario_registrado caller = true →
     e.existe_candidato cid = true →
     (e.votacion_iniciada = true ∨ e.fecha_inicio ≤ ts) →
     ts ≤ e.fecha_final →
     (s.votar_a_candidato caller ts eid cid).1 =
       .error "No se realizó el voto porque ya votaste anteriormente.") := by
  rcases votar_a_candidato_casos s caller ts eid cid with
    ⟨hs, herr⟩ | ⟨e', e1, heq, hreg, he1, hres⟩
  · refine ⟨?_, by rw [hs], by rw [hs], ?_⟩
    · rcases herr with ⟨-, h1⟩ | ⟨-, h1⟩ | ⟨e', -, -, -, h1⟩ <;> exact ⟨_, h1⟩
    · intro hreg hex hini hfin
      rcases herr with ⟨h1, -⟩ | ⟨h1, -⟩ | ⟨e', he', hflag, hts, -⟩
      · rw [hreg] at h1
        simp at h1
      · rw [he] at h1
        simp at h1
      · rw [he] at he'
        obtain rfl : e' = e := by
          injection he' with h2
          exact h2.symm
        rcases hini with h2 | h2
        · rw [hflag] at h2
          simp at h2
        · omega
  · obtain rfl : e = e' := by
      rw [he] at heq
      injection heq
    have hget := obtener_eleccion_getElem he
    have hvot1 : Eleccion.votantes e1 = Eleccion.votantes e := by
      rcases he1 with ⟨-, rfl⟩ | ⟨-, -, rfl⟩ <;> rfl
    have hcand1 : Eleccion.candidatos e1 = Eleccion.candidatos e := by
      rcases he1 with ⟨-, rfl⟩ | ⟨-, -, rfl⟩ <;> rfl
    have hfin1 : Eleccion.fecha_final e1 = Eleccion.fecha_final e := by
      rcases he1 with ⟨-, rfl⟩ | ⟨-, -, rfl⟩ <;> rfl
    have hv1 : e1.votantes.find? (fun x => x.id == caller) = some v := by
      rw [hvot1]
      exact hv
    obtain ⟨m2, h2, h2m⟩ := votar_candidato_ya_voto e1 caller cid v hv1 hvoted
    rcases hres with ⟨hfin, hr⟩ | ⟨hfin, hr⟩
    · have h0 : (s.votar_a_candidato caller ts eid cid).2 = s.updateEleccion eid e1 := by
        rw [hr]
      refine ⟨⟨_, by rw [hr]⟩, ?_, ?_, ?_⟩
      · rw [h0]
        exact map_set_self _ hget hvot1
      · rw [h0]
        exact map_set_self _ hget hcand1
      · intro _ _ _ hfin2
        rw [hfin1] at hfin
        omega
    · have h0 : (s.votar_a_candidato caller ts eid cid).2 =
          s.updateEleccion eid (e1.votar_candidato caller cid).2 := by
        rw [hr]
      have h1 : (s.votar_a_candidato caller ts eid cid).1 =
          (e1.votar_candidato caller cid).1 := by
        rw [hr]
      rw [h2] at h0 h1
      refine ⟨⟨m2, h1⟩, ?_, ?_, ?_⟩
      · rw [h0]
        exact map_set_self _ hget hvot1
      · rw [h0]
        exact map_set_self _ hget hcand1
      · intro _ hex _ _
        rw [h1, h2m ?_]
        rw [show Eleccion.existe_candidato e1 cid = Eleccion.existe_candidato e cid by
          unfold Eleccion.existe_candidato
          rw [hcand1]]
        exact hex

/-- Witness for C1: a repeat vote inside the window with a valid candidate
fails with the already-voted error and changes no voter record or tally. -/
theorem claim_C1_witness :
    (∃ m, (sistemaYaVotado.votar_a_candidato 1 6 1 1).1 = Except.error m) ∧
    ((sistemaYaVotado.votar_a_candidato 1 6 1 1).2).elecciones.map Eleccion.votantes =
      sistemaYaVotado.elecciones.map Eleccion.votantes ∧
    ((sistemaYaVotado.votar_a_candidato 1 6 1 1).2).elecciones.map Eleccion.candidatos =
      sistemaYaVotado.elecciones.map Eleccion.candidatos ∧
    (sistemaYaVotado.votar_a_candidato 1 6 1 1).1 =
      .error "No se realizó el voto porque ya votaste anteriormente." := by
  obtain ⟨h1, h2, h3, h4⟩ :=
    claim_C1_un_solo_voto sistemaYaVotado 1 6 1 1 eleccionYaVotada ⟨1, true⟩ rfl rfl rfl
  exact ⟨h1, h2, h3, h4 (by decide) (by decide) (Or.inl rfl) (by decide)⟩

/-- Counterexample for C1 as frozen: after a successful vote, a later
castVote by the same voter past the end time fails with the voting-ended
error, not the already-voted error the claim requires for every later call. -/
theorem claim_C1_counterexample :
    (sistemaConVoto.votar_a_candidato 1 5 1 1).1 = .ok "Voto emitido exitosamente." ∧
    (((sistemaConVoto.votar_a_candidato 1 5 1 1).2).votar_a_candidato 1 20 1 1).1 =
      .error "La votación ya finalizó." ∧
    "La votación ya finalizó." ≠ "No se realizó el voto porque ya votaste anteriormente." := by
  refine ⟨rfl, rfl, by decide⟩

/-- Transitivity of the descending-votes comparator. -/
theorem leVotos_trans : ∀ (a b c : AccountId × Nat),
    leVotos a b → leVotos b c → leVotos a c := by
  intro a b c h1 h2
  simp only [leVotos, decide_eq_true_eq] at *
  omega

/-- Totality of the descending-votes comparator. -/
theorem leVotos_total : ∀ (a b : AccountId × Nat), leVotos a b || leVotos b a := by
  intro a b
  simp only [leVotos]
  by_cases h : b.2 ≤ a.2
  · simp [h]
  · simp [h]
    omega

/-- The stable sort of the ranking is pairwise descending in vote counts. -/
theorem pairwise_ranking (l : List (AccountId × Nat)) :
    (l.mergeSort leVotos).Pairwise (fun a b => b.2 ≤ a.2) := by
  have h := List.sorted_mergeSort leVotos_trans leVotos_total l
  exact h.imp (by
    intro a b hab
    simpa [leVotos] using hab)

/-- A list whose members all satisfy a property is pairwise related by any
relation that holds between such members. -/
theorem pairwise_of_const {α : Type} {R : α → α → Prop} {P : α → Prop} {l : List α}
    (hl : ∀ x ∈ l, P x) (h : ∀ x y, P x → P y → R x y) : l.Pairwise R := by
  induction l with
  | nil => exact List.Pairwise.nil
  | cons x xs ih =>
    exact List.Pairwise.cons
      (fun y hy => h x y (hl x (List.mem_cons_self x xs)) (hl y (List.mem_cons_of_mem _ hy)))
      (ih fun y hy => hl y (List.mem_cons_of_mem _ hy))

/-- Stability of the ranking sort: restricted to any fixed vote count, the
sorted list keeps the original relative order (it agrees with the original
filter). -/
theorem mergeSort_leVotos_filter (l : List (AccountId × Nat)) (v : Nat) :
    (l.mergeSort leVotos).filter (fun p => p.2 == v) = l.filter (fun p => p.2 == v) := by
  have hperm : List.Perm ((l.mergeSort leVotos).filter (fun p => p.2 == v))
      (l.filter (fun p => p.2 == v)) := (List.mergeSort_perm l leVotos).filter _
  have hmemv : ∀ x ∈ l.filter (fun p => (p.2 == v : Bool)), x.2 = v := by
    intro x hx
    have h1 := (List.mem_filter.mp hx).2
    simpa using h1
  have hpair : (l.filter (fun p => (p.2 == v : Bool))).Pairwise
      (fun a b => leVotos a b = true) :=
    pairwise_of_const hmemv (by
      intro x y hx hy
      simp [leVotos, hx, hy])
  have hsub : List.Sublist (l.filter (fun p => (p.2 == v : Bool))) (l.mergeSort leVotos) :=
    List.sublist_mergeSort leVotos_trans leVotos_total hpair (List.filter_sublist l)
  have hsub2 : List.Sublist (l.filter (fun p => (p.2 == v : Bool)))
      ((l.mergeSort leVotos).filter (fun p => (p.2 == v : Bool))) := by
    have h2 := hsub.filter (fun p => (p.2 == v : Bool))
    rwa [List.filter_filter,
      (by
        funext a
        rw [Bool.and_self] :
        (fun (a : AccountId × Nat) => (a.2 == v) && (a.2 == v)) =
          fun a => (a.2 == v))] at h2
  exact (hsub2.eq_of_length hperm.length_eq.symm).symm

/-- C8: on a finished election with at least one candidate, the result report
returns the candidates as a permutation of the tally data sorted by votes in
descending order, stably (within each vote count the original id order is
kept), and the winner is the top candidate unless the top two vote counts
are equal, in which case the winner is `none` while the full ranked list is
still returned. -/
theorem claim_C8_ranking (s : SistemaElecciones) (caller : AccountId) (ts eid : Nat)
    (l : List (AccountId × Nat))
    (hc : s.obtener_candidatos_eleccion_por_id caller ts eid = .ok l)
    (hne : l ≠ []) :
    ∃ w ranked, Reporte.reporte_de_resultado_por_eleccion s caller ts eid =
        some (.ok (w, ranked)) ∧
      List.Perm (ranked.map (fun t => (t.1, votosDe t))) l ∧
      ranked.Pairwise (fun a b => votosDe b ≤ votosDe a) ∧
      (∀ v, (ranked.filter (fun t => votosDe t == v)).map (fun t => t.1) =
        (l.filter (fun p => p.2 == v)).map (fun p => p.1)) ∧
      (∀ c0, ranked = [c0] → w = some c0) ∧
      (∀ c0 c1 resto, ranked = c0 :: c1 :: resto →
        w = if votosDe c0 = votosDe c1 then none else some c0) := by
  have hA : List.Perm (((l.mergeSort leVotos).map (enriquecerCandidato s caller)).map
      (fun t => (t.1, votosDe t))) l := by
    rw [List.map_map]
    have hcomp : ((fun (t : AccountId × String × String × String × Nat) =>
        (t.1, votosDe t)) ∘ enriquecerCandidato s caller) =
        (fun dc : AccountId × Nat => dc) := by
      funext dc
      rfl
    rw [hcomp, List.map_id']
    exact List.mergeSort_perm l leVotos
  have hB : ((l.mergeSort leVotos).map (enriquecerCandidato s caller)).Pairwise
      (fun a b => votosDe b ≤ votosDe a) := by
    rw [List.pairwise_map]
    exact pairwise_ranking l
  have hC : ∀ v, (((l.mergeSort leVotos).map (enriquecerCandidato s caller)).filter
      (fun t => votosDe t == v)).map (fun t => t.1) =
      (l.filter (fun p => p.2 == v)).map (fun p => p.1) := by
    intro v
    rw [List.filter_map, List.map_map]
    have hp : ((fun (t : AccountId × String × String × String × Nat) =>
        votosDe t == v) ∘ enriquecerCandidato s caller) =
        (fun p : AccountId × Nat => p.2 == v) := rfl
    have hf : ((fun (t : AccountId × String × String × String × Nat) => t.1) ∘
        enriquecerCandidato s caller) = (fun p : AccountId × Nat => p.1) := rfl
    rw [hp, hf, mergeSort_leVotos_filter]
  have hres : Reporte.reporte_de_resultado_por_eleccion s caller ts eid =
      (match (l.mergeSort leVotos).map (enriquecerCandidato s caller) with
       | [] => none
       | c0 :: resto =>
         match resto with
         | [] => some (.ok (some c0, c0 :: resto))
         | c1 :: _ =>
           if votosDe c0 = votosDe c1 then some (.ok (none, c0 :: resto))
           else some (.ok (some c0, c0 :: resto))) := by
    unfold Reporte.reporte_de_resultado_por_eleccion
    rw [hc]
  rw [hres]
  cases hm : (l.mergeSort leVotos).map (enriquecerCandidato s caller) with
  | nil =>
    exfalso
    have hlen := congrArg List.length hm
    simp [List.length_mergeSort] at hlen
    exact hne hlen
  | cons c0 resto =>
    rw [hm] at hA hB hC
    cases resto with
    | nil =>
      refine ⟨some c0, [c0], rfl, hA, hB, hC, ?_, ?_⟩
      · intro c0' h
        injection h with h1 h2
        rw [h1]
      · intro c0' c1' resto' h
        injection h with h1 h2
        simp at h2
    | cons c1 resto2 =>
      refine ⟨if votosDe c0 = votosDe c1 then none else some c0, c0 :: c1 :: resto2,
        ?_, hA, hB, hC, ?_, ?_⟩
      · by_cases hv0 : votosDe c0 = votosDe c1
        · simp [hv0]
        · simp [hv0]
      · intro c0' h
        injection h with h1 h2
        simp at h2
      · intro c0' c1' resto' h
        injection h with h1 h2
        injection h2 with h3 h4
        rw [h1, h3]

/-- Witness for C8 on the spec's ranking example A: candidates with 2 and 3
votes. -/
theorem claim_C8_witness :
    ∃ w ranked, Reporte.reporte_de_resultado_por_eleccion sistemaReportes 9 1 2 =
        some (.ok (w, ranked)) ∧
      List.Perm (ranked.map (fun t => (t.1, votosDe t))) [((10 : AccountId), 2), (12, 3)] ∧
      ranked.Pairwise (fun a b => votosDe b ≤ votosDe a) ∧
      (∀ v, (ranked.filter (fun t => votosDe t == v)).map (fun t => t.1) =
        ([((10 : AccountId), 2), (12, 3)].filter (fun p => p.2 == v)).map (fun p => p.1)) ∧
      (∀ c0, ranked = [c0] → w = some c0) ∧
      (∀ c0 c1 resto, ranked = c0 :: c1 :: resto →
        w = if votosDe c0 = votosDe c1 then none else some c0) :=
  claim_C8_ranking sistemaReportes 9 1 2 [(10, 2), (12, 3)] rfl (by decide)
